import Mathlib

/-!
Shallow embedding of `src/mcal/examples/Adc/adc_hw_trig_dma_app/AdcApp.c`
(TexasInstruments/mcal_am261x), the ADC hardware-trigger DMA example
application.

The application is modelled as follows.

* Every call the application makes into a driver (ADC driver, EPWM
  driverlib, Cdd_Dma driver, cache-maintenance primitives, AppUtils) is
  recorded as an `Event`; the functions of `AdcApp.c` are embedded as
  Lean functions that produce the list of events in exactly the order
  of the C statements, threading through the mutable program state they
  touch (`testPassed`, `gTestPassed`, `gAdcAppLog`).

* The responses of the external drivers and of the hardware (group
  status queries, result-buffer setup return codes, values observed in
  the DMA buffer and the hardware result register during the poll loop,
  the stack/section-corruption check) are supplied by an oracle
  structure `Env`; the embedding is a function of this oracle, so every
  theorem quantified over `Env` holds for every possible behaviour of
  the drivers and hardware.

* `ADC_MAX_GROUP` is a configuration constant defined in generated
  config headers that are not part of the sources here; it is carried
  as an explicit parameter `maxGroup` everywhere.

* Diagnostic-only output (`GT_trace` / `AppUtils_printf` format strings,
  version-info printing in `Adc_appInit`) mutates nothing and is not
  given events, except for the final test verdict
  (`AppUtils_logTestResult`), which the claims are about.  Driver calls
  that return values (`Adc_GetGroupStatus`, `Adc_SetupResultBuffer`,
  `Adc_GetReadResultBaseAddress`) record their result in their event.
-/

/-- `Std_ReturnType` with the two values used by `AdcApp.c`
(`E_OK` / `E_NOT_OK`). -/
inductive Std_ReturnType
  | E_OK
  | E_NOT_OK
deriving DecidableEq

export Std_ReturnType (E_OK E_NOT_OK)

/-- `Adc_StatusType`: the ADC group status enumeration
(AUTOSAR ADC driver; `ADC_IDLE` is the zero value). -/
inductive Adc_StatusType
  | ADC_IDLE
  | ADC_BUSY
  | ADC_COMPLETED
  | ADC_STREAM_COMPLETED
deriving DecidableEq

export Adc_StatusType (ADC_IDLE ADC_BUSY ADC_COMPLETED ADC_STREAM_COMPLETED)

/-- Number of channels to test (`ADC_APP_NUM_CHANNEL`, AdcApp.c line 37). -/
def ADC_APP_NUM_CHANNEL : Nat := 1

/-- Samples per channel (`ADC_APP_DEFAULT_STREAM_SAMPLES`, line 40). -/
def ADC_APP_DEFAULT_STREAM_SAMPLES : Nat := 1

/-- Read buffer size in 16-bit words (`ADC_APP_READ_BUF_SIZE_WORD`, line 42). -/
def ADC_APP_READ_BUF_SIZE_WORD : Nat :=
  ADC_APP_DEFAULT_STREAM_SAMPLES * ADC_APP_NUM_CHANNEL

/-- Number of iterations of the test loop (`ADC_APP_LOOPCNT`, line 45). -/
def ADC_APP_LOOPCNT : Nat := 10

/-- DMA channel used for testing (`ADC_APP_DMA_CHANNEL`, line 48). -/
def ADC_APP_DMA_CHANNEL : Nat := 0

/-- ADC group used for hardware triggering (`ADC_APP_GROUP_ID`, line 49). -/
def ADC_APP_GROUP_ID : Nat := 0

/-- EPWM instance base address (`ADC_APP_EPWM_BASE_ADDR`, line 52). -/
def ADC_APP_EPWM_BASE_ADDR : Nat := 0x50000000

/-- Size of the application log (`ADC_APP_LOG_SIZE`, line 55). -/
def ADC_APP_LOG_SIZE : Nat := 10

/-- Size of one `Adc_ValueGroupType` sample (`uint16`) in bytes; the
per-trigger output of the sampler is `ADC_APP_NUM_CHANNEL` samples of
this width. -/
def bytesPerSample : Nat := 2

/-- Enumeration-valued arguments passed to the EPWM driverlib calls in
`AdcApp.c`.  The numeric values of these C enumerators live in the EPWM
driverlib headers, which are not part of the sources here; only their
identity matters to the application, so each enumerator used by
`AdcApp.c` is one constructor, named exactly as in the source. -/
inductive EpwmArg
  | EPWM_CLOCK_DIVIDER_8
  | EPWM_HSCLOCK_DIVIDER_1
  | EPWM_GL_REGISTER_TBPRD_TBPRDHR
  | EPWM_GL_REGISTER_CMPA_CMPAHR
  | EPWM_GL_REGISTER_CMPB_CMPBHR
  | EPWM_GL_REGISTER_CMPC
  | EPWM_GL_REGISTER_CMPD
  | EPWM_GL_REGISTER_AQCSFRC
  | EPWM_GL_REGISTER_AQCTLA_AQCTLA2
  | EPWM_GL_REGISTER_AQCTLB_AQCTLB2
  | EPWM_PERIOD_SHADOW_LOAD
  | EPWM_COUNTER_MODE_STOP_FREEZE
  | EPWM_COUNTER_MODE_UP
  | EPWM_COUNT_MODE_DOWN_AFTER_SYNC
  | EPWM_SYNC_IN_PULSE_SRC_DISABLE
  | EPWM_OSHT_SYNC_OUT_TRIG_SYNC
  | EPWM_COUNTER_COMPARE_A
  | EPWM_COUNTER_COMPARE_B
  | EPWM_COUNTER_COMPARE_C
  | EPWM_COUNTER_COMPARE_D
  | EPWM_COMP_LOAD_ON_CNTR_ZERO
  | EPWM_AQ_SW_SH_LOAD_ON_CNTR_ZERO
  | EPWM_ACTION_QUALIFIER_A
  | EPWM_ACTION_QUALIFIER_B
  | EPWM_AQ_LOAD_ON_CNTR_ZERO
  | EPWM_AQ_TRIGGER_EVENT_TRIG_DCA_1
  | EPWM_AQ_OUTPUT_A
  | EPWM_AQ_OUTPUT_B
  | EPWM_AQ_OUTPUT_NO_CHANGE
  | EPWM_AQ_OUTPUT_HIGH
  | EPWM_AQ_OUTPUT_LOW
  | EPWM_AQ_SW_DISABLED
  | EPWM_AQ_OUTPUT_ON_TIMEBASE_ZERO
  | EPWM_AQ_OUTPUT_ON_TIMEBASE_PERIOD
  | EPWM_AQ_OUTPUT_ON_TIMEBASE_UP_CMPA
  | EPWM_AQ_OUTPUT_ON_TIMEBASE_DOWN_CMPA
  | EPWM_AQ_OUTPUT_ON_TIMEBASE_UP_CMPB
  | EPWM_AQ_OUTPUT_ON_TIMEBASE_DOWN_CMPB
  | EPWM_AQ_OUTPUT_ON_T1_COUNT_UP
  | EPWM_AQ_OUTPUT_ON_T1_COUNT_DOWN
  | EPWM_AQ_OUTPUT_ON_T2_COUNT_UP
  | EPWM_AQ_OUTPUT_ON_T2_COUNT_DOWN
  | EPWM_INT_TBCTR_ZERO
  | EPWM_SOC_A
  | EPWM_SOC_B
  | EPWM_SOC_TBCTR_U_CMPA
  | EPWM_SOC_DCxEVT1
  | EPWM_GL_LOAD_PULSE_CNTR_ZERO
deriving DecidableEq

export EpwmArg (EPWM_COUNTER_MODE_STOP_FREEZE EPWM_COUNTER_MODE_UP EPWM_SOC_A EPWM_SOC_B)

/-- One EPWM driverlib call made by `AdcApp.c`, with its arguments
(the `baseAddr` argument, always `ADC_APP_EPWM_BASE_ADDR`, is carried
by the caller and omitted from the operation). -/
inductive EpwmOp
  | EPWM_setClockPrescaler (divider hsdivider : EpwmArg)
  | EPWM_setTimeBasePeriod (period : Nat)
  | EPWM_disableGlobalLoadRegisters (reg : EpwmArg)
  | EPWM_setPeriodLoadMode (mode : EpwmArg)
  | EPWM_setTimeBaseCounter (v : Nat)
  | EPWM_setTimeBaseCounterMode (mode : EpwmArg)
  | EPWM_setCountModeAfterSync (mode : EpwmArg)
  | EPWM_disablePhaseShiftLoad
  | EPWM_setPhaseShift (v : Nat)
  | EPWM_enableSyncOutPulseSource (src : Nat)
  | EPWM_setSyncInPulseSource (src : EpwmArg)
  | EPWM_setOneShotSyncOutTrigger (trig : EpwmArg)
  | EPWM_setCounterCompareValue (comp : EpwmArg) (v : Nat)
  | EPWM_setCounterCompareShadowLoadMode (comp mode : EpwmArg)
  | EPWM_setActionQualifierContSWForceShadowMode (mode : EpwmArg)
  | EPWM_disableActionQualifierShadowLoadMode (aq : EpwmArg)
  | EPWM_setActionQualifierShadowLoadMode (aq mode : EpwmArg)
  | EPWM_setActionQualifierT1TriggerSource (src : EpwmArg)
  | EPWM_setActionQualifierT2TriggerSource (src : EpwmArg)
  | EPWM_setActionQualifierSWAction (output action : EpwmArg)
  | EPWM_setActionQualifierContSWForceAction (output action : EpwmArg)
  | EPWM_setActionQualifierAction (output action event : EpwmArg)
  | EPWM_disableInterruptCall
  | EPWM_setInterruptSource (a b : EpwmArg)
  | EPWM_setInterruptEventCount (v : Nat)
  | EPWM_disableInterruptEventCountInit
  | EPWM_setInterruptEventCountInitValue (v : Nat)
  | EPWM_enableADCTrigger (soc : EpwmArg)
  | EPWM_setADCTriggerSource (soc a b : EpwmArg)
  | EPWM_setADCTriggerEventPrescale (soc : EpwmArg) (v : Nat)
  | EPWM_disableADCTriggerEventCountInit (soc : EpwmArg)
  | EPWM_setADCTriggerEventCountInitValue (soc : EpwmArg) (v : Nat)
  | EPWM_disableADCTrigger (soc : EpwmArg)
  | EPWM_disableGlobalLoad
  | EPWM_setGlobalLoadTrigger (t : EpwmArg)
  | EPWM_setGlobalLoadEventPrescale (v : Nat)
  | EPWM_disableGlobalLoadOneShotMode
  | EPWM_lockRegisters (v : Nat)
deriving DecidableEq

/-- The EDMA OPT-field masks OR-ed together in `Adc_appDmaConfigure`
(AdcApp.c lines 554-555).  The numeric mask values live in the Cdd_Dma
headers, which are not part of the sources here; the OR of distinct
single-bit masks is modelled as the set (list) of masks included. -/
inductive EdmaOptFlag
  | CDD_EDMA_OPT_TCINTEN_MASK
  | CDD_EDMA_OPT_ITCINTEN_MASK
  | CDD_EDMA_OPT_SYNCDIM_MASK
  | CDD_EDMA_OPT_STATIC_MASK
deriving DecidableEq

export EdmaOptFlag (CDD_EDMA_OPT_TCINTEN_MASK CDD_EDMA_OPT_ITCINTEN_MASK CDD_EDMA_OPT_SYNCDIM_MASK CDD_EDMA_OPT_STATIC_MASK)

/-- Trigger mode passed to `Cdd_Dma_EnableTransferRegion`. -/
inductive CddEdmaTrigMode
  | CDD_EDMA_TRIG_MODE_EVENT
deriving DecidableEq

/-- `Cdd_Dma_ParamEntry` as filled in by `Adc_appDmaConfigure`
(AdcApp.c lines 541-555).  Pointers are modelled as `Nat` addresses. -/
structure Cdd_Dma_ParamEntry where
  srcPtr : Nat
  destPtr : Nat
  aCnt : Nat
  bCnt : Nat
  cCnt : Nat
  bCntReload : Nat
  srcBIdx : Int
  destBIdx : Int
  srcCIdx : Int
  destCIdx : Int
  opt : List EdmaOptFlag
deriving DecidableEq

/-- `Adc_AppLog_t` (AdcApp.c lines 64-69): one log record of the
draining/poll loop. -/
structure Adc_AppLog_t where
  dmaBuff : Nat
  hwResult : Nat
  status : Adc_StatusType
deriving DecidableEq

/-- One observable action of the application: a driver / hardware /
cache call, in program order.  Calls that return a value record the
value returned by the environment oracle. -/
inductive Event
  | adcAppPlatformInit
  | cddDmaInit
  | adcInit
  | vimRegisterInterrupt
  | cddDmaCbkRegister (ch : Nat)
  | getGroupStatus (grp : Nat) (status : Adc_StatusType)
  | setupResultBuffer (grp : Nat) (result : Std_ReturnType)
  | memsetDmaBuffer
  | cacheWb
  | enableGroupNotification (grp : Nat)
  | enableHardwareTrigger (grp : Nat)
  | setInterruptContinuousMode (grp : Nat)
  | getReadResultBaseAddress (grp : Nat) (addr : Nat)
  | dmaParamSet (ch regionA regionB : Nat) (p : Cdd_Dma_ParamEntry)
  | dmaEnableTransferRegion (ch : Nat) (mode : CddEdmaTrigMode)
  | epwm (op : EpwmOp)
  | controlssWrite (addr value : Nat)
  | cacheInv
  | logWrite (idx : Nat) (entry : Adc_AppLog_t)
  | delay (ms : Nat)
  | printLogEntry (idx : Nat) (entry : Adc_AppLog_t)
  | disableHardwareTrigger (grp : Nat)
  | disableGroupNotification (grp : Nat)
  | stackCheck (result : Std_ReturnType)
  | logTestResult (passed : Bool)
  | adcDeInit
  | cddDmaDeInit
  | adcAppPlatformDeInit
deriving DecidableEq

/-- Oracle for every value the application receives from the drivers
and the hardware during one run.  Quantifying theorems over `Env`
makes them hold for every possible driver/hardware behaviour. -/
structure Env where
  /-- Result of `Adc_GetGroupStatus grp` during the Setup phase. -/
  groupStatusAtSetup : Nat → Adc_StatusType
  /-- Result of `Adc_SetupResultBuffer grp _` during the Setup phase. -/
  setupBufferResult : Nat → Std_ReturnType
  /-- Result of `Adc_GetReadResultBaseAddress ADC_APP_GROUP_ID`
  (a fixed hardware address). -/
  readResultBaseAddress : Nat
  /-- Value read from `gAdcAppDmaBuffer[0][0]` at poll tick `tick` of
  iteration `loopcnt` (whatever the DMA engine last wrote). -/
  pollDmaValue : Nat → Nat → Nat
  /-- Value read from the hardware result register at poll tick `tick`
  of iteration `loopcnt`. -/
  pollHwValue : Nat → Nat → Nat
  /-- Result of `Adc_GetGroupStatus 0` at poll tick `tick` of
  iteration `loopcnt`. -/
  pollStatus : Nat → Nat → Adc_StatusType
  /-- Whether `AppUtils_checkStackAndSectionCorruption` reports
  corruption at teardown (`true` means the check returned non-`E_OK`). -/
  stackCorruption : Bool

/-- Symbolic address of `gAdcAppDmaBuffer[0][0]`, the destination
buffer handed to the DMA engine.  Its numeric link-time value is
irrelevant to the model; only its identity is used. -/
def gAdcAppDmaBuffer_addr : Nat := 0

set_option maxHeartbeats 1600000 in
/-- The exact sequence of EPWM driverlib calls made by
`Adc_appEpwmEnable` (AdcApp.c lines 402-520), in program order. -/
def Adc_appEpwmEnable_ops : List EpwmOp :=
  [ .EPWM_setClockPrescaler .EPWM_CLOCK_DIVIDER_8 .EPWM_HSCLOCK_DIVIDER_1
  , .EPWM_setTimeBasePeriod 25000
  , .EPWM_disableGlobalLoadRegisters .EPWM_GL_REGISTER_TBPRD_TBPRDHR
  , .EPWM_setPeriodLoadMode .EPWM_PERIOD_SHADOW_LOAD
  , .EPWM_setTimeBaseCounter 0
  , .EPWM_setTimeBaseCounterMode .EPWM_COUNTER_MODE_STOP_FREEZE
  , .EPWM_setCountModeAfterSync .EPWM_COUNT_MODE_DOWN_AFTER_SYNC
  , .EPWM_disablePhaseShiftLoad
  , .EPWM_setPhaseShift 0
  , .EPWM_enableSyncOutPulseSource 0
  , .EPWM_setSyncInPulseSource .EPWM_SYNC_IN_PULSE_SRC_DISABLE
  , .EPWM_setOneShotSyncOutTrigger .EPWM_OSHT_SYNC_OUT_TRIG_SYNC
  , .EPWM_setCounterCompareValue .EPWM_COUNTER_COMPARE_A 12500
  , .EPWM_disableGlobalLoadRegisters .EPWM_GL_REGISTER_CMPA_CMPAHR
  , .EPWM_setCounterCompareShadowLoadMode .EPWM_COUNTER_COMPARE_A .EPWM_COMP_LOAD_ON_CNTR_ZERO
  , .EPWM_setCounterCompareValue .EPWM_COUNTER_COMPARE_B 0
  , .EPWM_disableGlobalLoadRegisters .EPWM_GL_REGISTER_CMPB_CMPBHR
  , .EPWM_setCounterCompareShadowLoadMode .EPWM_COUNTER_COMPARE_B .EPWM_COMP_LOAD_ON_CNTR_ZERO
  , .EPWM_setCounterCompareValue .EPWM_COUNTER_COMPARE_C 0
  , .EPWM_disableGlobalLoadRegisters .EPWM_GL_REGISTER_CMPC
  , .EPWM_setCounterCompareShadowLoadMode .EPWM_COUNTER_COMPARE_C .EPWM_COMP_LOAD_ON_CNTR_ZERO
  , .EPWM_setCounterCompareValue .EPWM_COUNTER_COMPARE_D 0
  , .EPWM_disableGlobalLoadRegisters .EPWM_GL_REGISTER_CMPD
  , .EPWM_setCounterCompareShadowLoadMode .EPWM_COUNTER_COMPARE_D .EPWM_COMP_LOAD_ON_CNTR_ZERO
  , .EPWM_disableGlobalLoadRegisters .EPWM_GL_REGISTER_AQCSFRC
  , .EPWM_setActionQualifierContSWForceShadowMode .EPWM_AQ_SW_SH_LOAD_ON_CNTR_ZERO
  , .EPWM_disableGlobalLoadRegisters .EPWM_GL_REGISTER_AQCTLA_AQCTLA2
  , .EPWM_disableActionQualifierShadowLoadMode .EPWM_ACTION_QUALIFIER_A
  , .EPWM_setActionQualifierShadowLoadMode .EPWM_ACTION_QUALIFIER_A .EPWM_AQ_LOAD_ON_CNTR_ZERO
  , .EPWM_setActionQualifierT1TriggerSource .EPWM_AQ_TRIGGER_EVENT_TRIG_DCA_1
  , .EPWM_setActionQualifierT2TriggerSource .EPWM_AQ_TRIGGER_EVENT_TRIG_DCA_1
  , .EPWM_setActionQualifierSWAction .EPWM_AQ_OUTPUT_A .EPWM_AQ_OUTPUT_NO_CHANGE
  , .EPWM_setActionQualifierContSWForceAction .EPWM_AQ_OUTPUT_A .EPWM_AQ_SW_DISABLED
  , .EPWM_disableGlobalLoadRegisters .EPWM_GL_REGISTER_AQCTLB_AQCTLB2
  , .EPWM_disableActionQualifierShadowLoadMode .EPWM_ACTION_QUALIFIER_B
  , .EPWM_setActionQualifierShadowLoadMode .EPWM_ACTION_QUALIFIER_B .EPWM_AQ_LOAD_ON_CNTR_ZERO
  , .EPWM_setActionQualifierT1TriggerSource .EPWM_AQ_TRIGGER_EVENT_TRIG_DCA_1
  , .EPWM_setActionQualifierT2TriggerSource .EPWM_AQ_TRIGGER_EVENT_TRIG_DCA_1
  , .EPWM_setActionQualifierSWAction .EPWM_AQ_OUTPUT_B .EPWM_AQ_OUTPUT_NO_CHANGE
  , .EPWM_setActionQualifierContSWForceAction .EPWM_AQ_OUTPUT_B .EPWM_AQ_SW_DISABLED
  , .EPWM_setActionQualifierAction .EPWM_AQ_OUTPUT_A .EPWM_AQ_OUTPUT_NO_CHANGE .EPWM_AQ_OUTPUT_ON_TIMEBASE_ZERO
  , .EPWM_setActionQualifierAction .EPWM_AQ_OUTPUT_A .EPWM_AQ_OUTPUT_NO_CHANGE .EPWM_AQ_OUTPUT_ON_TIMEBASE_PERIOD
  , .EPWM_setActionQualifierAction .EPWM_AQ_OUTPUT_A .EPWM_AQ_OUTPUT_HIGH .EPWM_AQ_OUTPUT_ON_TIMEBASE_UP_CMPA
  , .EPWM_setActionQualifierAction .EPWM_AQ_OUTPUT_A .EPWM_AQ_OUTPUT_LOW .EPWM_AQ_OUTPUT_ON_TIMEBASE_DOWN_CMPA
  , .EPWM_setActionQualifierAction .EPWM_AQ_OUTPUT_A .EPWM_AQ_OUTPUT_NO_CHANGE .EPWM_AQ_OUTPUT_ON_TIMEBASE_UP_CMPB
  , .EPWM_setActionQualifierAction .EPWM_AQ_OUTPUT_A .EPWM_AQ_OUTPUT_NO_CHANGE .EPWM_AQ_OUTPUT_ON_TIMEBASE_DOWN_CMPB
  , .EPWM_setActionQualifierAction .EPWM_AQ_OUTPUT_A .EPWM_AQ_OUTPUT_NO_CHANGE .EPWM_AQ_OUTPUT_ON_T1_COUNT_UP
  , .EPWM_setActionQualifierAction .EPWM_AQ_OUTPUT_A .EPWM_AQ_OUTPUT_NO_CHANGE .EPWM_AQ_OUTPUT_ON_T1_COUNT_DOWN
  , .EPWM_setActionQualifierAction .EPWM_AQ_OUTPUT_A .EPWM_AQ_OUTPUT_NO_CHANGE .EPWM_AQ_OUTPUT_ON_T2_COUNT_UP
  , .EPWM_setActionQualifierAction .EPWM_AQ_OUTPUT_A .EPWM_AQ_OUTPUT_NO_CHANGE .EPWM_AQ_OUTPUT_ON_T2_COUNT_DOWN
  , .EPWM_setActionQualifierAction .EPWM_AQ_OUTPUT_B .EPWM_AQ_OUTPUT_NO_CHANGE .EPWM_AQ_OUTPUT_ON_TIMEBASE_ZERO
  , .EPWM_setActionQualifierAction .EPWM_AQ_OUTPUT_B .EPWM_AQ_OUTPUT_NO_CHANGE .EPWM_AQ_OUTPUT_ON_TIMEBASE_PERIOD
  , .EPWM_setActionQualifierAction .EPWM_AQ_OUTPUT_B .EPWM_AQ_OUTPUT_NO_CHANGE .EPWM_AQ_OUTPUT_ON_TIMEBASE_UP_CMPA
  , .EPWM_setActionQualifierAction .EPWM_AQ_OUTPUT_B .EPWM_AQ_OUTPUT_NO_CHANGE .EPWM_AQ_OUTPUT_ON_TIMEBASE_DOWN_CMPA
  , .EPWM_setActionQualifierAction .EPWM_AQ_OUTPUT_B .EPWM_AQ_OUTPUT_NO_CHANGE .EPWM_AQ_OUTPUT_ON_TIMEBASE_UP_CMPB
  , .EPWM_setActionQualifierAction .EPWM_AQ_OUTPUT_B .EPWM_AQ_OUTPUT_NO_CHANGE .EPWM_AQ_OUTPUT_ON_TIMEBASE_DOWN_CMPB
  , .EPWM_setActionQualifierAction .EPWM_AQ_OUTPUT_B .EPWM_AQ_OUTPUT_NO_CHANGE .EPWM_AQ_OUTPUT_ON_T1_COUNT_UP
  , .EPWM_setActionQualifierAction .EPWM_AQ_OUTPUT_B .EPWM_AQ_OUTPUT_NO_CHANGE .EPWM_AQ_OUTPUT_ON_T1_COUNT_DOWN
  , .EPWM_setActionQualifierAction .EPWM_AQ_OUTPUT_B .EPWM_AQ_OUTPUT_NO_CHANGE .EPWM_AQ_OUTPUT_ON_T2_COUNT_UP
  , .EPWM_setActionQualifierAction .EPWM_AQ_OUTPUT_B .EPWM_AQ_OUTPUT_NO_CHANGE .EPWM_AQ_OUTPUT_ON_T2_COUNT_DOWN
  , .EPWM_disableInterruptCall
  , .EPWM_setInterruptSource .EPWM_INT_TBCTR_ZERO .EPWM_INT_TBCTR_ZERO
  , .EPWM_setInterruptEventCount 0
  , .EPWM_disableInterruptEventCountInit
  , .EPWM_setInterruptEventCountInitValue 0
  , .EPWM_enableADCTrigger .EPWM_SOC_A
  , .EPWM_setADCTriggerSource .EPWM_SOC_A .EPWM_SOC_TBCTR_U_CMPA .EPWM_SOC_TBCTR_U_CMPA
  , .EPWM_setADCTriggerEventPrescale .EPWM_SOC_A 1
  , .EPWM_disableADCTriggerEventCountInit .EPWM_SOC_A
  , .EPWM_setADCTriggerEventCountInitValue .EPWM_SOC_A 0
  , .EPWM_disableADCTrigger .EPWM_SOC_B
  , .EPWM_setADCTriggerSource .EPWM_SOC_B .EPWM_SOC_DCxEVT1 .EPWM_SOC_DCxEVT1
  , .EPWM_setADCTriggerEventPrescale .EPWM_SOC_B 0
  , .EPWM_disableADCTriggerEventCountInit .EPWM_SOC_B
  , .EPWM_setADCTriggerEventCountInitValue .EPWM_SOC_B 0
  , .EPWM_disableGlobalLoad
  , .EPWM_setGlobalLoadTrigger .EPWM_GL_LOAD_PULSE_CNTR_ZERO
  , .EPWM_setGlobalLoadEventPrescale 0
  , .EPWM_disableGlobalLoadOneShotMode
  , .EPWM_lockRegisters 0 ]

/-- `Adc_appEpwmEnable` as a list of events. -/
def Adc_appEpwmEnable_events : List Event :=
  Adc_appEpwmEnable_ops.map Event.epwm

/-- The EDMA param entry built by `Adc_appDmaConfigure`
(AdcApp.c lines 543-555). -/
def Adc_appDmaConfigure_param (destPtr : Nat) (length : Nat) (srcAddr : Nat) :
    Cdd_Dma_ParamEntry :=
  { srcPtr := srcAddr
  , destPtr := destPtr
  , aCnt := length
  , bCnt := 1
  , cCnt := 1
  , bCntReload := 0
  , srcBIdx := 0
  , destBIdx := 0
  , srcCIdx := 0
  , destCIdx := 2
  , opt := [ CDD_EDMA_OPT_TCINTEN_MASK, CDD_EDMA_OPT_ITCINTEN_MASK
           , CDD_EDMA_OPT_SYNCDIM_MASK, CDD_EDMA_OPT_STATIC_MASK ] }

/-- `Adc_appDmaConfigure` (AdcApp.c lines 539-561): builds the param
entry, installs it with `Cdd_Dma_ParamSet(dmaCh, 0, 0, edmaParam)` and
arms the channel with `Cdd_Dma_EnableTransferRegion`. -/
def Adc_appDmaConfigure_events (destPtr : Nat) (length : Nat) (dmaCh : Nat) (srcAddr : Nat) :
    List Event :=
  [ .dmaParamSet dmaCh 0 0 (Adc_appDmaConfigure_param destPtr length srcAddr)
  , .dmaEnableTransferRegion dmaCh .CDD_EDMA_TRIG_MODE_EVENT ]

/-- The log record captured at poll tick `tick` of iteration `loopcnt`
(AdcApp.c lines 361-363). -/
def Adc_AppLog_entry (env : Env) (loopcnt tick : Nat) : Adc_AppLog_t :=
  { dmaBuff := env.pollDmaValue loopcnt tick
  , hwResult := env.pollHwValue loopcnt tick
  , status := env.pollStatus loopcnt tick }

/-- The poll loop of `Adc_appPrintResult` (AdcApp.c lines 357-366) over
a list of log indices: each tick invalidates the DMA buffer from cache,
records one log entry, and delays 100 ms. -/
def Adc_appPrintResult_pollLoop (env : Env) (loopcnt : Nat) :
    List Nat → List Adc_AppLog_t → List Adc_AppLog_t × List Event
  | [], log => (log, [])
  | i :: rest, log =>
    let e := Adc_AppLog_entry env loopcnt i
    let r := Adc_appPrintResult_pollLoop env loopcnt rest (log.set i e)
    (r.1, [.cacheInv, .logWrite i e, .delay 100] ++ r.2)

/-- `Adc_appPrintResult` (AdcApp.c lines 337-380): queries the ADC read
result base address, runs the poll loop over indices
`0 .. ADC_APP_LOG_SIZE - 1`, then prints the captured log entries.
Returns the updated `gAdcAppLog` and the events. -/
def Adc_appPrintResult_run (env : Env) (loopcnt : Nat) (log : List Adc_AppLog_t) :
    List Adc_AppLog_t × List Event :=
  let r := Adc_appPrintResult_pollLoop env loopcnt (List.range ADC_APP_LOG_SIZE) log
  (r.1,
   [.getReadResultBaseAddress ADC_APP_GROUP_ID env.readResultBaseAddress]
     ++ r.2
     ++ (List.range ADC_APP_LOG_SIZE).map
          (fun i => Event.printLogEntry i (r.1.getD i ⟨0, 0, ADC_IDLE⟩)))

/-- `Adc_appDisableTrigger` (AdcApp.c lines 522-529). -/
def Adc_appDisableTrigger_events : List Event :=
  [ .epwm (.EPWM_disableADCTrigger .EPWM_SOC_A)
  , .epwm (.EPWM_disableADCTrigger .EPWM_SOC_B)
  , .epwm (.EPWM_setTimeBaseCounterMode .EPWM_COUNTER_MODE_STOP_FREEZE) ]

/-- The arming portion of one iteration of the test loop
(AdcApp.c lines 148-172): zero and write back the DMA buffer, enable
group notifications, enable the hardware trigger and continuous
interrupt mode, configure the DMA channel, configure the EPWM, set the
EPWM counter to count-up mode, and perform the CONTROLSS TBCLK SYNC
register writes. -/
def Adc_appTest_armSegment (maxGroup : Nat) (env : Env) : List Event :=
  [.memsetDmaBuffer, .cacheWb]
    ++ (List.range maxGroup).map Event.enableGroupNotification
    ++ [ .enableHardwareTrigger ADC_APP_GROUP_ID
       , .setInterruptContinuousMode ADC_APP_GROUP_ID
       , .getReadResultBaseAddress ADC_APP_GROUP_ID env.readResultBaseAddress ]
    ++ Adc_appDmaConfigure_events gAdcAppDmaBuffer_addr
         (ADC_APP_NUM_CHANNEL * 2) ADC_APP_DMA_CHANNEL env.readResultBaseAddress
    ++ Adc_appEpwmEnable_events
    ++ [.epwm (.EPWM_setTimeBaseCounterMode .EPWM_COUNTER_MODE_UP)]
    ++ [ .controlssWrite (0x502F0000 + 0x1008) 0x01234567
       , .controlssWrite (0x502F0000 + 0x100C) 0xFEDCBA8
       , .controlssWrite (0x502F0000 + 0x0010) 0x00000001 ]

/-- The disarming portion of one iteration of the test loop
(AdcApp.c lines 176-183): stop the EPWM trigger generation, disable
the ADC hardware trigger, disable all group notifications. -/
def Adc_appTest_disarmSegment (maxGroup : Nat) : List Event :=
  Adc_appDisableTrigger_events
    ++ [.disableHardwareTrigger ADC_APP_GROUP_ID]
    ++ (List.range maxGroup).map Event.disableGroupNotification

/-- One iteration of the test loop (AdcApp.c lines 146-184):
arm, drain/log (`Adc_appPrintResult`), disarm. -/
def Adc_appTest_iter (maxGroup : Nat) (env : Env) (loopcnt : Nat)
    (log : List Adc_AppLog_t) : List Adc_AppLog_t × List Event :=
  let r := Adc_appPrintResult_run env loopcnt log
  (r.1,
   Adc_appTest_armSegment maxGroup env ++ r.2
     ++ Adc_appTest_disarmSegment maxGroup)

/-- The iteration loop of `Adc_appTest` over a list of loop counters. -/
def Adc_appTest_iterLoop (maxGroup : Nat) (env : Env) :
    List Nat → List Adc_AppLog_t → List Adc_AppLog_t × List Event
  | [], log => (log, [])
  | i :: rest, log =>
    let r1 := Adc_appTest_iter maxGroup env i log
    let r2 := Adc_appTest_iterLoop maxGroup env rest r1.1
    (r2.1, r1.2 ++ r2.2)

/-- The Setup loop of `Adc_appTest` (AdcApp.c lines 125-144) over a
list of group indices, threading the local `testPassed` flag: each
group's status is checked against `ADC_IDLE` (a mismatch flags a
failure) and its result buffer is installed with
`Adc_SetupResultBuffer` (a non-`E_OK` return flags a failure); the
loop always continues with the remaining groups. -/
def Adc_appTest_setupLoop (env : Env) :
    List Nat → Std_ReturnType → Std_ReturnType × List Event
  | [], tp => (tp, [])
  | g :: rest, tp =>
    let status := env.groupStatusAtSetup g
    let tp1 := if status ≠ ADC_IDLE then E_NOT_OK else tp
    let r := env.setupBufferResult g
    let tp2 := if r ≠ E_OK then E_NOT_OK else tp1
    let rec2 := Adc_appTest_setupLoop env rest tp2
    (rec2.1, [.getGroupStatus g status, .setupResultBuffer g r] ++ rec2.2)

/-- `Adc_appTest` (AdcApp.c lines 117-192): the Setup loop over all
groups, the iteration loop (`ADC_APP_LOOPCNT` iterations), and the
final transfer of the local `testPassed` flag into the global
`gTestPassed` (line 186-189).  Returns the new `gTestPassed`, the
final `gAdcAppLog`, and the events. -/
def Adc_appTest_run (maxGroup : Nat) (env : Env) (log : List Adc_AppLog_t)
    (gTestPassed : Std_ReturnType) :
    Std_ReturnType × List Adc_AppLog_t × List Event :=
  let s := Adc_appTest_setupLoop env (List.range maxGroup) E_OK
  let r := Adc_appTest_iterLoop maxGroup env (List.range ADC_APP_LOOPCNT) log
  let g2 := if s.1 ≠ E_OK then E_NOT_OK else gTestPassed
  (g2, r.1, s.2 ++ r.2)

/-- `Adc_appDeInit` (AdcApp.c lines 291-317): run the stack/section
corruption check (flagging `gTestPassed` on corruption), then evaluate
`gTestPassed` once to emit the final PASS/FAIL verdict
(`AppUtils_logTestResult`), then deinitialise the drivers. -/
def Adc_appDeInit_run (env : Env) (gTestPassed : Std_ReturnType) :
    Std_ReturnType × List Event :=
  let stackRes := if env.stackCorruption then E_NOT_OK else E_OK
  let g2 := if stackRes ≠ E_OK then E_NOT_OK else gTestPassed
  (g2,
   [ .stackCheck stackRes
   , .logTestResult (g2 = E_OK)
   , .adcDeInit, .cddDmaDeInit, .adcAppPlatformDeInit ])

/-- `Adc_appInit` (AdcApp.c lines 200-289): platform init, DMA init,
ADC init, interrupt registration (`Adc_appInterruptConfig`), DMA
callback registration.  The version-info and configuration printing is
diagnostic only. -/
def Adc_appInit_events : List Event :=
  [ .adcAppPlatformInit, .cddDmaInit, .adcInit, .vimRegisterInterrupt
  , .cddDmaCbkRegister ADC_APP_DMA_CHANNEL ]

/-- Zero-initialised `gAdcAppLog` (C static storage; `ADC_IDLE` is the
zero value of `Adc_StatusType`). -/
def gAdcAppLog_init : List Adc_AppLog_t :=
  List.replicate ADC_APP_LOG_SIZE ⟨0, 0, ADC_IDLE⟩

/-- `main` (AdcApp.c lines 108-115): init, test, deinit.  Returns the
final `gTestPassed`, the final `gAdcAppLog`, and the full run trace.
`gTestPassed` starts as `E_OK` (line 91). -/
def main_run (maxGroup : Nat) (env : Env) :
    Std_ReturnType × List Adc_AppLog_t × List Event :=
  let t := Adc_appTest_run maxGroup env gAdcAppLog_init E_OK
  let d := Adc_appDeInit_run env t.1
  (d.1, t.2.1, Adc_appInit_events ++ t.2.2 ++ d.2)

/-- The full event trace of one run. -/
def mainTrace (maxGroup : Nat) (env : Env) : List Event :=
  (main_run maxGroup env).2.2

/-- The final value of `gTestPassed` at the point where `Adc_appDeInit`
evaluates the verdict. -/
def finalVerdict (maxGroup : Nat) (env : Env) : Std_ReturnType :=
  (main_run maxGroup env).1

/-- A group fails its Setup-phase checks: its status is not `ADC_IDLE`
or its result-buffer installation does not return `E_OK`. -/
def setupFailsAt (env : Env) (grp : Nat) : Prop :=
  env.groupStatusAtSetup grp ≠ ADC_IDLE ∨ env.setupBufferResult grp ≠ E_OK

instance (env : Env) (grp : Nat) : Decidable (setupFailsAt env grp) := by
  unfold setupFailsAt; infer_instance

/-- The mutable global state of the application (AdcApp.c lines 90-102):
the pass/fail flag `gTestPassed`, the DMA-callback counter
`gAdcAppDmaCallbackCount`, the application log `gAdcAppLog`, and the
software-visible contents of the DMA destination buffer
`gAdcAppDmaBuffer`.  The counter is a `volatile uint32` in the source;
it is modelled as a `Nat` kept below `2 ^ 32` by applying the uint32
wraparound (`% 2 ^ 32`) at every increment in `applyOp`. -/
structure GState where
  gTestPassed : Std_ReturnType
  gAdcAppDmaCallbackCount : Nat
  gAdcAppLog : List Adc_AppLog_t
  gAdcAppDmaBuffer : List Nat
deriving DecidableEq

/-- The atomic operations of the run that mutate global state; the
software operations come from `Adc_appTest` / `Adc_appPrintResult` /
`Adc_appDeInit`, `adcAppDmaTransferCallback` is the interrupt-context
DMA completion callback (AdcApp.c lines 531-537), and `dmaEngineWrite`
is the asynchronous hardware transfer-engine write into the
destination buffer.  An arbitrary interleaving of these operations is
an arbitrary run of the concurrent system. -/
inductive ProgOp
  | adcAppDmaTransferCallback
  | memsetDmaBuffer
  | logWrite (idx : Nat) (e : Adc_AppLog_t)
  | markTestFailed
  | dmaEngineWrite (idx v : Nat)
deriving DecidableEq

/-- Effect of one atomic operation on the global state.
`adcAppDmaTransferCallback` embeds the body of
`Adc_appDmaTransferCallback` (AdcApp.c line 534):
`gAdcAppDmaCallbackCount++` and nothing else; the `++` on a `uint32`
wraps modulo `2 ^ 32`. -/
def applyOp : ProgOp → GState → GState
  | .adcAppDmaTransferCallback, s =>
    { s with gAdcAppDmaCallbackCount := (s.gAdcAppDmaCallbackCount + 1) % 2 ^ 32 }
  | .memsetDmaBuffer, s =>
    { s with gAdcAppDmaBuffer := List.replicate s.gAdcAppDmaBuffer.length 0 }
  | .logWrite i e, s => { s with gAdcAppLog := s.gAdcAppLog.set i e }
  | .markTestFailed, s => { s with gTestPassed := E_NOT_OK }
  | .dmaEngineWrite i v, s =>
    { s with gAdcAppDmaBuffer := s.gAdcAppDmaBuffer.set i v }

/-- Run a sequence of atomic operations (an interleaving of the
software thread, the interrupt handler, and the hardware engine). -/
def runOps (ops : List ProgOp) (s : GState) : GState :=
  ops.foldl (fun s op => applyOp op s) s

/-- Recognise a DMA-callback invocation among the atomic operations. -/
def isCallbackOp : ProgOp → Bool
  | .adcAppDmaTransferCallback => true
  | _ => false

/-- The hardware-port state touched by the disarm sequence
(AdcApp.c lines 176-178 and 522-529): the two EPWM ADC-trigger enables
(SOC_A, SOC_B), the EPWM time-base counter mode, and the ADC driver's
hardware-trigger enable for the test group. -/
structure EpwmAdcHwState where
  adcTriggerSocA : Bool
  adcTriggerSocB : Bool
  timeBaseCounterMode : EpwmArg
  samplerHwTriggerEnabled : Bool
deriving DecidableEq

/-- State effect of `Adc_appDisableTrigger` (AdcApp.c lines 522-529):
disable both EPWM ADC triggers and freeze the time-base counter.  The
C function returns `void`: it cannot fail, so it is a total function
on the port state. -/
def Adc_appDisableTrigger_state (s : EpwmAdcHwState) : EpwmAdcHwState :=
  { s with adcTriggerSocA := false
         , adcTriggerSocB := false
         , timeBaseCounterMode := EPWM_COUNTER_MODE_STOP_FREEZE }

/-- State effect of the full disarm sequence of one iteration
(AdcApp.c lines 177-178): `Adc_appDisableTrigger` followed by
`Adc_DisableHardwareTrigger(ADC_APP_GROUP_ID)`. -/
def Adc_appTest_disarm_state (s : EpwmAdcHwState) : EpwmAdcHwState :=
  { Adc_appDisableTrigger_state s with samplerHwTriggerEnabled := false }

/-- `e1` precedes `e2` in trace `l`: every occurrence of `e1` is at a
strictly smaller position than every occurrence of `e2`. -/
def EventPrecedes (e1 e2 : Event) (l : List Event) : Prop :=
  ∀ i j : Nat, l.get? i = some e1 → l.get? j = some e2 → i < j

/-- The index of the log entry written by a `logWrite` event. -/
def writeIdxOf : Event → Option Nat
  | .logWrite i _ => some i
  | _ => none

/-- The sequence of log indices written, in trace order. -/
def writeIndices (l : List Event) : List Nat :=
  l.filterMap writeIdxOf

/-- The sequence of entries written to log index `idx`, in trace
order. -/
def writesAt (idx : Nat) (l : List Event) : List Adc_AppLog_t :=
  l.filterMap fun e =>
    match e with
    | .logWrite i en => if i = idx then some en else none
    | _ => none

/-- Recognise the buffer-zeroing event that starts each iteration. -/
def isMemsetEvent : Event → Bool
  | .memsetDmaBuffer => true
  | _ => false

/-- Recognise the final verdict event (`AppUtils_logTestResult`). -/
def isLogTestResultEvent : Event → Bool
  | .logTestResult _ => true
  | _ => false

/-- A nominal environment: all groups idle, all buffer setups succeed,
no corruption; the DMA buffer observation at iteration `loopcnt` is
`loopcnt` (the engine has written a new value by each iteration). -/
def envNominal : Env :=
  { groupStatusAtSetup := fun _ => ADC_IDLE
  , setupBufferResult := fun _ => E_OK
  , readResultBaseAddress := 0x52100000
  , pollDmaValue := fun loopcnt _ => loopcnt
  , pollHwValue := fun _ _ => 0
  , pollStatus := fun _ _ => ADC_IDLE
  , stackCorruption := false }

/-- An environment in which group 0 is found `ADC_BUSY` at Setup and
everything else is nominal. -/
def envBusyGroup0 : Env :=
  { envNominal with
      groupStatusAtSetup := fun g => if g = 0 then ADC_BUSY else ADC_IDLE }

theorem eventPrecedes_append {e1 e2 : Event} {l1 l2 : List Event}
    (h1 : e1 ∉ l2) (h2 : e2 ∉ l1) : EventPrecedes e1 e2 (l1 ++ l2) := by
  intro i j hi hj
  rw [List.get?_eq_getElem?] at hi hj
  have hilt : i < l1.length := by
    by_contra hge
    push_neg at hge
    rw [List.getElem?_append_right hge] at hi
    exact h1 (List.getElem?_mem hi)
  have hjge : l1.length ≤ j := by
    by_contra hlt
    push_neg at hlt
    rw [List.getElem?_append_left hlt] at hj
    exact h2 (List.getElem?_mem hj)
  omega

theorem eventPrecedes_mono {e1 e2 : Event} {l l1 l2 : List Event}
    (h : l = l1 ++ l2) (h1 : e1 ∉ l2) (h2 : e2 ∉ l1) :
    EventPrecedes e1 e2 l := h ▸ eventPrecedes_append h1 h2

theorem setupLoop_events_eq (env : Env) (l : List Nat) (tp : Std_ReturnType) :
    (Adc_appTest_setupLoop env l tp).2 =
      l.flatMap (fun g =>
        [Event.getGroupStatus g (env.groupStatusAtSetup g),
         Event.setupResultBuffer g (env.setupBufferResult g)]) := by
  induction l generalizing tp with
  | nil => rfl
  | cons g rest ih => simp [Adc_appTest_setupLoop, ih]

theorem setupLoop_flag_iff (env : Env) (l : List Nat) (tp : Std_ReturnType) :
    (Adc_appTest_setupLoop env l tp).1 = E_NOT_OK ↔
      tp = E_NOT_OK ∨ ∃ g ∈ l, setupFailsAt env g := by
  induction l generalizing tp with
  | nil => simp [Adc_appTest_setupLoop]
  | cons g rest ih =>
    simp only [Adc_appTest_setupLoop, ih, List.mem_cons, setupFailsAt]
    by_cases hs : env.groupStatusAtSetup g = ADC_IDLE <;>
      by_cases hr : env.setupBufferResult g = E_OK <;>
        cases tp <;> simp [hs, hr]

theorem pollLoop_events_eq (env : Env) (loopcnt : Nat) (l : List Nat)
    (log : List Adc_AppLog_t) :
    (Adc_appPrintResult_pollLoop env loopcnt l log).2 =
      l.flatMap (fun i =>
        [Event.cacheInv, Event.logWrite i (Adc_AppLog_entry env loopcnt i),
         Event.delay 100]) := by
  induction l generalizing log with
  | nil => rfl
  | cons i rest ih => simp [Adc_appPrintResult_pollLoop, ih]

theorem eventPrecedes_append_left {e1 e2 : Event} {l1 l2 : List Event}
    (h : EventPrecedes e1 e2 l1) (h1 : e1 ∉ l2) (h2 : e2 ∉ l2) :
    EventPrecedes e1 e2 (l1 ++ l2) := by
  intro i j hi hj
  rw [List.get?_eq_getElem?] at hi hj
  have hilt : i < l1.length := by
    by_contra hge
    push_neg at hge
    rw [List.getElem?_append_right hge] at hi
    exact h1 (List.getElem?_mem hi)
  have hjlt : j < l1.length := by
    by_contra hge
    push_neg at hge
    rw [List.getElem?_append_right hge] at hj
    exact h2 (List.getElem?_mem hj)
  rw [List.getElem?_append_left hilt] at hi
  rw [List.getElem?_append_left hjlt] at hj
  exact h i j (by rw [List.get?_eq_getElem?]; exact hi)
    (by rw [List.get?_eq_getElem?]; exact hj)

theorem eventPrecedes_append_right {e1 e2 : Event} {l1 l2 : List Event}
    (h : EventPrecedes e1 e2 l2) (h2 : e2 ∉ l1) :
    EventPrecedes e1 e2 (l1 ++ l2) := by
  intro i j hi hj
  rw [List.get?_eq_getElem?] at hi hj
  have hjge : l1.length ≤ j := by
    by_contra hlt
    push_neg at hlt
    rw [List.getElem?_append_left hlt] at hj
    exact h2 (List.getElem?_mem hj)
  by_cases hilt : i < l1.length
  · omega
  · push_neg at hilt
    rw [List.getElem?_append_right hilt] at hi
    rw [List.getElem?_append_right hjge] at hj
    have := h (i - l1.length) (j - l1.length)
      (by rw [List.get?_eq_getElem?]; exact hi)
      (by rw [List.get?_eq_getElem?]; exact hj)
    omega

theorem not_mem_printResult_enableGroupNotification (env : Env) (lc : Nat)
    (log : List Adc_AppLog_t) (g : Nat) :
    Event.enableGroupNotification g ∉ (Adc_appPrintResult_run env lc log).2 := by
  intro h
  simp [Adc_appPrintResult_run, pollLoop_events_eq] at h

theorem not_mem_printResult_enableHardwareTrigger (env : Env) (lc : Nat)
    (log : List Adc_AppLog_t) (g : Nat) :
    Event.enableHardwareTrigger g ∉ (Adc_appPrintResult_run env lc log).2 := by
  intro h
  simp [Adc_appPrintResult_run, pollLoop_events_eq] at h

theorem not_mem_printResult_dmaParamSet (env : Env) (lc : Nat)
    (log : List Adc_AppLog_t) (ch a b : Nat) (p : Cdd_Dma_ParamEntry) :
    Event.dmaParamSet ch a b p ∉ (Adc_appPrintResult_run env lc log).2 := by
  intro h
  simp [Adc_appPrintResult_run, pollLoop_events_eq] at h

theorem not_mem_printResult_dmaEnableTransferRegion (env : Env) (lc : Nat)
    (log : List Adc_AppLog_t) (ch : Nat) (m : CddEdmaTrigMode) :
    Event.dmaEnableTransferRegion ch m ∉ (Adc_appPrintResult_run env lc log).2 := by
  intro h
  simp [Adc_appPrintResult_run, pollLoop_events_eq] at h

theorem not_mem_printResult_epwm (env : Env) (lc : Nat)
    (log : List Adc_AppLog_t) (op : EpwmOp) :
    Event.epwm op ∉ (Adc_appPrintResult_run env lc log).2 := by
  intro h
  simp [Adc_appPrintResult_run, pollLoop_events_eq] at h

theorem not_mem_printResult_disableHardwareTrigger (env : Env) (lc : Nat)
    (log : List Adc_AppLog_t) (g : Nat) :
    Event.disableHardwareTrigger g ∉ (Adc_appPrintResult_run env lc log).2 := by
  intro h
  simp [Adc_appPrintResult_run, pollLoop_events_eq] at h

theorem not_mem_printResult_disableGroupNotification (env : Env) (lc : Nat)
    (log : List Adc_AppLog_t) (g : Nat) :
    Event.disableGroupNotification g ∉ (Adc_appPrintResult_run env lc log).2 := by
  intro h
  simp [Adc_appPrintResult_run, pollLoop_events_eq] at h

theorem not_mem_printResult_memset (env : Env) (lc : Nat)
    (log : List Adc_AppLog_t) :
    Event.memsetDmaBuffer ∉ (Adc_appPrintResult_run env lc log).2 := by
  intro h
  simp [Adc_appPrintResult_run, pollLoop_events_eq] at h

theorem not_mem_printResult_cacheWb (env : Env) (lc : Nat)
    (log : List Adc_AppLog_t) :
    Event.cacheWb ∉ (Adc_appPrintResult_run env lc log).2 := by
  intro h
  simp [Adc_appPrintResult_run, pollLoop_events_eq] at h

theorem not_mem_printResult_logTestResult (env : Env) (lc : Nat)
    (log : List Adc_AppLog_t) (b : Bool) :
    Event.logTestResult b ∉ (Adc_appPrintResult_run env lc log).2 := by
  intro h
  simp [Adc_appPrintResult_run, pollLoop_events_eq] at h

theorem eventPrecedes_split (e1 e2 : Event) (l l1 l2 : List Event)
    (h : l = l1 ++ l2) (h1 : e1 ∉ l2) (h2 : e2 ∉ l1) :
    EventPrecedes e1 e2 l := h ▸ eventPrecedes_append h1 h2

/-- The event trace of one iteration of the test loop. -/
def Adc_appTest_iterEvents (maxGroup : Nat) (env : Env) (loopcnt : Nat)
    (log : List Adc_AppLog_t) : List Event :=
  (Adc_appTest_iter maxGroup env loopcnt log).2

theorem iterEvents_eq (maxGroup : Nat) (env : Env) (loopcnt : Nat)
    (log : List Adc_AppLog_t) :
    Adc_appTest_iterEvents maxGroup env loopcnt log =
      Adc_appTest_armSegment maxGroup env
        ++ (Adc_appPrintResult_run env loopcnt log).2
        ++ Adc_appTest_disarmSegment maxGroup := rfl

theorem iterEvents_precedes_of_arm {e1 e2 : Event} {maxGroup : Nat} {env : Env}
    {loopcnt : Nat} {log : List Adc_AppLog_t}
    (h : EventPrecedes e1 e2 (Adc_appTest_armSegment maxGroup env))
    (h1 : e1 ∉ (Adc_appPrintResult_run env loopcnt log).2)
    (h2 : e2 ∉ (Adc_appPrintResult_run env loopcnt log).2)
    (h3 : e1 ∉ Adc_appTest_disarmSegment maxGroup)
    (h4 : e2 ∉ Adc_appTest_disarmSegment maxGroup) :
    EventPrecedes e1 e2 (Adc_appTest_iterEvents maxGroup env loopcnt log) := by
  rw [iterEvents_eq]
  exact eventPrecedes_append_left (eventPrecedes_append_left h h1 h2) h3 h4

theorem iterEvents_precedes_of_disarm {e1 e2 : Event} {maxGroup : Nat} {env : Env}
    {loopcnt : Nat} {log : List Adc_AppLog_t}
    (h : EventPrecedes e1 e2 (Adc_appTest_disarmSegment maxGroup))
    (h1 : e2 ∉ Adc_appTest_armSegment maxGroup env)
    (h2 : e2 ∉ (Adc_appPrintResult_run env loopcnt log).2) :
    EventPrecedes e1 e2 (Adc_appTest_iterEvents maxGroup env loopcnt log) := by
  rw [iterEvents_eq]
  refine eventPrecedes_append_right h ?_
  simp only [List.mem_append]
  rintro (ha | hb)
  · exact h1 ha
  · exact h2 hb

/-- The `Cdd_Dma_ParamSet` event of each iteration (AdcApp.c line 163
with line 557). -/
def iterDmaParamSetEvent (env : Env) : Event :=
  .dmaParamSet ADC_APP_DMA_CHANNEL 0 0
    (Adc_appDmaConfigure_param gAdcAppDmaBuffer_addr
      (ADC_APP_NUM_CHANNEL * 2) env.readResultBaseAddress)

/-- The `Cdd_Dma_EnableTransferRegion` event of each iteration
(AdcApp.c line 558). -/
def iterDmaEnableEvent : Event :=
  .dmaEnableTransferRegion ADC_APP_DMA_CHANNEL .CDD_EDMA_TRIG_MODE_EVENT

/-- The event that starts the trigger generator: the EPWM time-base
counter is put into count-up mode (AdcApp.c line 167). -/
def epwmCounterUpEvent : Event :=
  .epwm (.EPWM_setTimeBaseCounterMode .EPWM_COUNTER_MODE_UP)

theorem counterUp_not_mem_epwmEnable :
    epwmCounterUpEvent ∉ Adc_appEpwmEnable_events := by decide

theorem armPrec_memset_wb (maxGroup : Nat) (env : Env) :
    EventPrecedes .memsetDmaBuffer .cacheWb
      (Adc_appTest_armSegment maxGroup env) := by
  refine eventPrecedes_split _ _ _
    [.memsetDmaBuffer]
    ([.cacheWb]
      ++ (List.range maxGroup).map Event.enableGroupNotification
      ++ [ .enableHardwareTrigger ADC_APP_GROUP_ID
         , .setInterruptContinuousMode ADC_APP_GROUP_ID
         , .getReadResultBaseAddress ADC_APP_GROUP_ID env.readResultBaseAddress ]
      ++ Adc_appDmaConfigure_events gAdcAppDmaBuffer_addr
           (ADC_APP_NUM_CHANNEL * 2) ADC_APP_DMA_CHANNEL env.readResultBaseAddress
      ++ Adc_appEpwmEnable_events
      ++ [.epwm (.EPWM_setTimeBaseCounterMode .EPWM_COUNTER_MODE_UP)]
      ++ [ .controlssWrite (0x502F0000 + 0x1008) 0x01234567
         , .controlssWrite (0x502F0000 + 0x100C) 0xFEDCBA8
         , .controlssWrite (0x502F0000 + 0x0010) 0x00000001 ]) ?_ ?_ ?_
  · simp [Adc_appTest_armSegment, List.append_assoc]
  · simp [Adc_appDmaConfigure_events, Adc_appEpwmEnable_events]
  · simp

theorem armPrec_wb_notif (maxGroup : Nat) (env : Env) (g : Nat) :
    EventPrecedes .cacheWb (.enableGroupNotification g)
      (Adc_appTest_armSegment maxGroup env) := by
  refine eventPrecedes_split _ _ _
    [.memsetDmaBuffer, .cacheWb]
    ((List.range maxGroup).map Event.enableGroupNotification
      ++ [ .enableHardwareTrigger ADC_APP_GROUP_ID
         , .setInterruptContinuousMode ADC_APP_GROUP_ID
         , .getReadResultBaseAddress ADC_APP_GROUP_ID env.readResultBaseAddress ]
      ++ Adc_appDmaConfigure_events gAdcAppDmaBuffer_addr
           (ADC_APP_NUM_CHANNEL * 2) ADC_APP_DMA_CHANNEL env.readResultBaseAddress
      ++ Adc_appEpwmEnable_events
      ++ [.epwm (.EPWM_setTimeBaseCounterMode .EPWM_COUNTER_MODE_UP)]
      ++ [ .controlssWrite (0x502F0000 + 0x1008) 0x01234567
         , .controlssWrite (0x502F0000 + 0x100C) 0xFEDCBA8
         , .controlssWrite (0x502F0000 + 0x0010) 0x00000001 ]) ?_ ?_ ?_
  · simp [Adc_appTest_armSegment, List.append_assoc]
  · simp [Adc_appDmaConfigure_events, Adc_appEpwmEnable_events]
  · simp

theorem armPrec_wb_ehw (maxGroup : Nat) (env : Env) :
    EventPrecedes .cacheWb (.enableHardwareTrigger ADC_APP_GROUP_ID)
      (Adc_appTest_armSegment maxGroup env) := by
  refine eventPrecedes_split _ _ _
    [.memsetDmaBuffer, .cacheWb]
    ((List.range maxGroup).map Event.enableGroupNotification
      ++ [ .enableHardwareTrigger ADC_APP_GROUP_ID
         , .setInterruptContinuousMode ADC_APP_GROUP_ID
         , .getReadResultBaseAddress ADC_APP_GROUP_ID env.readResultBaseAddress ]
      ++ Adc_appDmaConfigure_events gAdcAppDmaBuffer_addr
           (ADC_APP_NUM_CHANNEL * 2) ADC_APP_DMA_CHANNEL env.readResultBaseAddress
      ++ Adc_appEpwmEnable_events
      ++ [.epwm (.EPWM_setTimeBaseCounterMode .EPWM_COUNTER_MODE_UP)]
      ++ [ .controlssWrite (0x502F0000 + 0x1008) 0x01234567
         , .controlssWrite (0x502F0000 + 0x100C) 0xFEDCBA8
         , .controlssWrite (0x502F0000 + 0x0010) 0x00000001 ]) ?_ ?_ ?_
  · simp [Adc_appTest_armSegment, List.append_assoc]
  · simp [Adc_appDmaConfigure_events, Adc_appEpwmEnable_events]
  · simp

theorem armPrec_notif_ehw (maxGroup : Nat) (env : Env) (g : Nat) :
    EventPrecedes (.enableGroupNotification g)
      (.enableHardwareTrigger ADC_APP_GROUP_ID)
      (Adc_appTest_armSegment maxGroup env) := by
  refine eventPrecedes_split _ _ _
    ([.memsetDmaBuffer, .cacheWb]
      ++ (List.range maxGroup).map Event.enableGroupNotification)
    ([ .enableHardwareTrigger ADC_APP_GROUP_ID
     , .setInterruptContinuousMode ADC_APP_GROUP_ID
     , .getReadResultBaseAddress ADC_APP_GROUP_ID env.readResultBaseAddress ]
      ++ Adc_appDmaConfigure_events gAdcAppDmaBuffer_addr
           (ADC_APP_NUM_CHANNEL * 2) ADC_APP_DMA_CHANNEL env.readResultBaseAddress
      ++ Adc_appEpwmEnable_events
      ++ [.epwm (.EPWM_setTimeBaseCounterMode .EPWM_COUNTER_MODE_UP)]
      ++ [ .controlssWrite (0x502F0000 + 0x1008) 0x01234567
         , .controlssWrite (0x502F0000 + 0x100C) 0xFEDCBA8
         , .controlssWrite (0x502F0000 + 0x0010) 0x00000001 ]) ?_ ?_ ?_
  · simp [Adc_appTest_armSegment, List.append_assoc]
  · simp [Adc_appDmaConfigure_events, Adc_appEpwmEnable_events]
  · simp

theorem armPrec_ehw_paramSet (maxGroup : Nat) (env : Env) :
    EventPrecedes (.enableHardwareTrigger ADC_APP_GROUP_ID)
      (iterDmaParamSetEvent env) (Adc_appTest_armSegment maxGroup env) := by
  refine eventPrecedes_split _ _ _
    ([.memsetDmaBuffer, .cacheWb]
      ++ (List.range maxGroup).map Event.enableGroupNotification
      ++ [ .enableHardwareTrigger ADC_APP_GROUP_ID
         , .setInterruptContinuousMode ADC_APP_GROUP_ID
         , .getReadResultBaseAddress ADC_APP_GROUP_ID env.readResultBaseAddress ])
    (Adc_appDmaConfigure_events gAdcAppDmaBuffer_addr
        (ADC_APP_NUM_CHANNEL * 2) ADC_APP_DMA_CHANNEL env.readResultBaseAddress
      ++ Adc_appEpwmEnable_events
      ++ [.epwm (.EPWM_setTimeBaseCounterMode .EPWM_COUNTER_MODE_UP)]
      ++ [ .controlssWrite (0x502F0000 + 0x1008) 0x01234567
         , .controlssWrite (0x502F0000 + 0x100C) 0xFEDCBA8
         , .controlssWrite (0x502F0000 + 0x0010) 0x00000001 ]) ?_ ?_ ?_
  · simp [Adc_appTest_armSegment, List.append_assoc]
  · simp [Adc_appDmaConfigure_events, Adc_appEpwmEnable_events]
  · simp [iterDmaParamSetEvent]

theorem armPrec_paramSet_enable (maxGroup : Nat) (env : Env) :
    EventPrecedes (iterDmaParamSetEvent env) iterDmaEnableEvent
      (Adc_appTest_armSegment maxGroup env) := by
  refine eventPrecedes_split _ _ _
    ([.memsetDmaBuffer, .cacheWb]
      ++ (List.range maxGroup).map Event.enableGroupNotification
      ++ [ .enableHardwareTrigger ADC_APP_GROUP_ID
         , .setInterruptContinuousMode ADC_APP_GROUP_ID
         , .getReadResultBaseAddress ADC_APP_GROUP_ID env.readResultBaseAddress ]
      ++ [iterDmaParamSetEvent env])
    ([iterDmaEnableEvent]
      ++ Adc_appEpwmEnable_events
      ++ [.epwm (.EPWM_setTimeBaseCounterMode .EPWM_COUNTER_MODE_UP)]
      ++ [ .controlssWrite (0x502F0000 + 0x1008) 0x01234567
         , .controlssWrite (0x502F0000 + 0x100C) 0xFEDCBA8
         , .controlssWrite (0x502F0000 + 0x0010) 0x00000001 ]) ?_ ?_ ?_
  · simp [Adc_appTest_armSegment, Adc_appDmaConfigure_events,
      iterDmaParamSetEvent, iterDmaEnableEvent, List.append_assoc]
  · simp [Adc_appEpwmEnable_events, iterDmaParamSetEvent, iterDmaEnableEvent]
  · simp [iterDmaParamSetEvent, iterDmaEnableEvent]

theorem armPrec_enable_up (maxGroup : Nat) (env : Env) :
    EventPrecedes iterDmaEnableEvent epwmCounterUpEvent
      (Adc_appTest_armSegment maxGroup env) := by
  refine eventPrecedes_split _ _ _
    ([.memsetDmaBuffer, .cacheWb]
      ++ (List.range maxGroup).map Event.enableGroupNotification
      ++ [ .enableHardwareTrigger ADC_APP_GROUP_ID
         , .setInterruptContinuousMode ADC_APP_GROUP_ID
         , .getReadResultBaseAddress ADC_APP_GROUP_ID env.readResultBaseAddress ]
      ++ Adc_appDmaConfigure_events gAdcAppDmaBuffer_addr
           (ADC_APP_NUM_CHANNEL * 2) ADC_APP_DMA_CHANNEL env.readResultBaseAddress
      ++ Adc_appEpwmEnable_events)
    ([epwmCounterUpEvent]
      ++ [ .controlssWrite (0x502F0000 + 0x1008) 0x01234567
         , .controlssWrite (0x502F0000 + 0x100C) 0xFEDCBA8
         , .controlssWrite (0x502F0000 + 0x0010) 0x00000001 ]) ?_ ?_ ?_
  · simp [Adc_appTest_armSegment, epwmCounterUpEvent, List.append_assoc]
  · simp [iterDmaEnableEvent, epwmCounterUpEvent]
  · intro h
    simp [Adc_appDmaConfigure_events, epwmCounterUpEvent, iterDmaEnableEvent] at h
    exact counterUp_not_mem_epwmEnable (by simpa [epwmCounterUpEvent, Adc_appEpwmEnable_events] using h)

theorem disarmPrec_disA_dhw (maxGroup : Nat) :
    EventPrecedes (.epwm (.EPWM_disableADCTrigger .EPWM_SOC_A))
      (.disableHardwareTrigger ADC_APP_GROUP_ID)
      (Adc_appTest_disarmSegment maxGroup) := by
  refine eventPrecedes_split _ _ _
    Adc_appDisableTrigger_events
    ([.disableHardwareTrigger ADC_APP_GROUP_ID]
      ++ (List.range maxGroup).map Event.disableGroupNotification) ?_ ?_ ?_
  · simp [Adc_appTest_disarmSegment, List.append_assoc]
  · simp
  · decide

theorem disarmPrec_disB_dhw (maxGroup : Nat) :
    EventPrecedes (.epwm (.EPWM_disableADCTrigger .EPWM_SOC_B))
      (.disableHardwareTrigger ADC_APP_GROUP_ID)
      (Adc_appTest_disarmSegment maxGroup) := by
  refine eventPrecedes_split _ _ _
    Adc_appDisableTrigger_events
    ([.disableHardwareTrigger ADC_APP_GROUP_ID]
      ++ (List.range maxGroup).map Event.disableGroupNotification) ?_ ?_ ?_
  · simp [Adc_appTest_disarmSegment, List.append_assoc]
  · simp
  · decide

theorem disarmPrec_freeze_dhw (maxGroup : Nat) :
    EventPrecedes (.epwm (.EPWM_setTimeBaseCounterMode .EPWM_COUNTER_MODE_STOP_FREEZE))
      (.disableHardwareTrigger ADC_APP_GROUP_ID)
      (Adc_appTest_disarmSegment maxGroup) := by
  refine eventPrecedes_split _ _ _
    Adc_appDisableTrigger_events
    ([.disableHardwareTrigger ADC_APP_GROUP_ID]
      ++ (List.range maxGroup).map Event.disableGroupNotification) ?_ ?_ ?_
  · simp [Adc_appTest_disarmSegment, List.append_assoc]
  · simp
  · decide

theorem disarmPrec_dhw_notif (maxGroup : Nat) (g : Nat) :
    EventPrecedes (.disableHardwareTrigger ADC_APP_GROUP_ID)
      (.disableGroupNotification g)
      (Adc_appTest_disarmSegment maxGroup) := by
  refine eventPrecedes_split _ _ _
    (Adc_appDisableTrigger_events ++ [.disableHardwareTrigger ADC_APP_GROUP_ID])
    ((List.range maxGroup).map Event.disableGroupNotification) ?_ ?_ ?_
  · simp [Adc_appTest_disarmSegment, List.append_assoc]
  · simp
  · simp [Adc_appDisableTrigger_events, ADC_APP_GROUP_ID]

theorem dhw_not_mem_armSegment (maxGroup : Nat) (env : Env) (g : Nat) :
    Event.disableHardwareTrigger g ∉ Adc_appTest_armSegment maxGroup env := by
  intro h
  simp [Adc_appTest_armSegment, Adc_appDmaConfigure_events,
    Adc_appEpwmEnable_events] at h

theorem disNotif_not_mem_armSegment (maxGroup : Nat) (env : Env) (g : Nat) :
    Event.disableGroupNotification g ∉ Adc_appTest_armSegment maxGroup env := by
  intro h
  simp [Adc_appTest_armSegment, Adc_appDmaConfigure_events,
    Adc_appEpwmEnable_events] at h

/-- C3: in every iteration of the capture loop, the destination DMA
buffer is zeroed (`memset`) and write-back flushed (`Mcal_CacheP_wb`)
as the first two actions, before any arming operation; then group
notifications are enabled, then the ADC hardware trigger is enabled,
then the DMA channel is configured (`Cdd_Dma_ParamSet`) and armed
(`Cdd_Dma_EnableTransferRegion`) with the destination buffer, and only
after that is the trigger generator started (the EPWM time-base
counter set to count-up mode).  In particular every occurrence of the
transfer-engine arming event precedes every occurrence of the
trigger-generator start event, so the transfer engine is never started
after the trigger generator within an iteration. -/
theorem adcApp_C3_armingOrder (maxGroup : Nat) (env : Env) (loopcnt : Nat)
    (log : List Adc_AppLog_t) :
    (Adc_appTest_iterEvents maxGroup env loopcnt log).get? 0 =
        some .memsetDmaBuffer
    ∧ (Adc_appTest_iterEvents maxGroup env loopcnt log).get? 1 = some .cacheWb
    ∧ (∀ g, EventPrecedes .cacheWb (.enableGroupNotification g)
        (Adc_appTest_iterEvents maxGroup env loopcnt log))
    ∧ (∀ g, EventPrecedes (.enableGroupNotification g)
        (.enableHardwareTrigger ADC_APP_GROUP_ID)
        (Adc_appTest_iterEvents maxGroup env loopcnt log))
    ∧ EventPrecedes (.enableHardwareTrigger ADC_APP_GROUP_ID)
        (iterDmaParamSetEvent env)
        (Adc_appTest_iterEvents maxGroup env loopcnt log)
    ∧ EventPrecedes (iterDmaParamSetEvent env) iterDmaEnableEvent
        (Adc_appTest_iterEvents maxGroup env loopcnt log)
    ∧ EventPrecedes iterDmaEnableEvent epwmCounterUpEvent
        (Adc_appTest_iterEvents maxGroup env loopcnt log) := by
  refine ⟨rfl, rfl, ?_, ?_, ?_, ?_, ?_⟩
  · intro g
    refine iterEvents_precedes_of_arm (armPrec_wb_notif maxGroup env g)
      (not_mem_printResult_cacheWb env loopcnt log) ?_ ?_ ?_
    · intro h
      simp [Adc_appPrintResult_run, pollLoop_events_eq] at h
    · simp [Adc_appTest_disarmSegment, Adc_appDisableTrigger_events]
    · simp [Adc_appTest_disarmSegment, Adc_appDisableTrigger_events]
  · intro g
    refine iterEvents_precedes_of_arm (armPrec_notif_ehw maxGroup env g)
      ?_ (not_mem_printResult_enableHardwareTrigger env loopcnt log _) ?_ ?_
    · intro h
      simp [Adc_appPrintResult_run, pollLoop_events_eq] at h
    · simp [Adc_appTest_disarmSegment, Adc_appDisableTrigger_events]
    · simp [Adc_appTest_disarmSegment, Adc_appDisableTrigger_events]
  · refine iterEvents_precedes_of_arm (armPrec_ehw_paramSet maxGroup env)
      (not_mem_printResult_enableHardwareTrigger env loopcnt log _)
      (not_mem_printResult_dmaParamSet env loopcnt log _ _ _ _) ?_ ?_
    · simp [Adc_appTest_disarmSegment, Adc_appDisableTrigger_events]
    · simp [Adc_appTest_disarmSegment, Adc_appDisableTrigger_events,
        iterDmaParamSetEvent]
  · refine iterEvents_precedes_of_arm (armPrec_paramSet_enable maxGroup env)
      (not_mem_printResult_dmaParamSet env loopcnt log _ _ _ _)
      (not_mem_printResult_dmaEnableTransferRegion env loopcnt log _ _) ?_ ?_
    · simp [Adc_appTest_disarmSegment, Adc_appDisableTrigger_events,
        iterDmaParamSetEvent]
    · simp [Adc_appTest_disarmSegment, Adc_appDisableTrigger_events,
        iterDmaEnableEvent]
  · refine iterEvents_precedes_of_arm (armPrec_enable_up maxGroup env)
      (not_mem_printResult_dmaEnableTransferRegion env loopcnt log _ _)
      (not_mem_printResult_epwm env loopcnt log _) ?_ ?_
    · simp [Adc_appTest_disarmSegment, Adc_appDisableTrigger_events,
        iterDmaEnableEvent]
    · simp [Adc_appTest_disarmSegment, Adc_appDisableTrigger_events,
        epwmCounterUpEvent]

/-- C7: in every iteration, the Disarmed phase order holds: every
occurrence of each trigger-generator stop action (disabling the EPWM
ADC triggers SOC_A and SOC_B and freezing the time-base counter)
precedes the disabling of the sampler's hardware trigger, which in
turn precedes the disabling of every group notification; and the
disarm phase disables the notification of every configured group. -/
theorem adcApp_C7_disarmOrder (maxGroup : Nat) (env : Env) (loopcnt : Nat)
    (log : List Adc_AppLog_t) :
    EventPrecedes (.epwm (.EPWM_disableADCTrigger .EPWM_SOC_A))
        (.disableHardwareTrigger ADC_APP_GROUP_ID)
        (Adc_appTest_iterEvents maxGroup env loopcnt log)
    ∧ EventPrecedes (.epwm (.EPWM_disableADCTrigger .EPWM_SOC_B))
        (.disableHardwareTrigger ADC_APP_GROUP_ID)
        (Adc_appTest_iterEvents maxGroup env loopcnt log)
    ∧ EventPrecedes (.epwm (.EPWM_setTimeBaseCounterMode .EPWM_COUNTER_MODE_STOP_FREEZE))
        (.disableHardwareTrigger ADC_APP_GROUP_ID)
        (Adc_appTest_iterEvents maxGroup env loopcnt log)
    ∧ (∀ g, EventPrecedes (.disableHardwareTrigger ADC_APP_GROUP_ID)
        (.disableGroupNotification g)
        (Adc_appTest_iterEvents maxGroup env loopcnt log))
    ∧ (∀ g, g < maxGroup →
        Event.disableGroupNotification g ∈
          Adc_appTest_iterEvents maxGroup env loopcnt log) := by
  refine ⟨?_, ?_, ?_, ?_, ?_⟩
  · exact iterEvents_precedes_of_disarm (disarmPrec_disA_dhw maxGroup)
      (dhw_not_mem_armSegment maxGroup env _)
      (not_mem_printResult_disableHardwareTrigger env loopcnt log _)
  · exact iterEvents_precedes_of_disarm (disarmPrec_disB_dhw maxGroup)
      (dhw_not_mem_armSegment maxGroup env _)
      (not_mem_printResult_disableHardwareTrigger env loopcnt log _)
  · exact iterEvents_precedes_of_disarm (disarmPrec_freeze_dhw maxGroup)
      (dhw_not_mem_armSegment maxGroup env _)
      (not_mem_printResult_disableHardwareTrigger env loopcnt log _)
  · intro g
    exact iterEvents_precedes_of_disarm (disarmPrec_dhw_notif maxGroup g)
      (disNotif_not_mem_armSegment maxGroup env g)
      (not_mem_printResult_disableGroupNotification env loopcnt log g)
  · intro g hg
    rw [iterEvents_eq]
    simpa [Adc_appTest_disarmSegment, Adc_appDisableTrigger_events] using
      Or.inr (Or.inr hg)

theorem flatMap_triple_length {α : Type} (f g h : Nat → α) (n : Nat) :
    ((List.range n).flatMap (fun i => [f i, g i, h i])).length = 3 * n := by
  induction n with
  | zero => rfl
  | succ n ih =>
    rw [List.range_succ, List.flatMap_append, List.length_append, ih]
    simp
    omega

theorem flatMap_triple_getElem {α : Type} (f g h : Nat → α) (n t : Nat)
    (ht : t < n) :
    ((List.range n).flatMap (fun i => [f i, g i, h i]))[3 * t]? = some (f t)
    ∧ ((List.range n).flatMap (fun i => [f i, g i, h i]))[3 * t + 1]? = some (g t)
    ∧ ((List.range n).flatMap (fun i => [f i, g i, h i]))[3 * t + 2]? = some (h t) := by
  induction n with
  | zero => omega
  | succ n ih =>
    rw [List.range_succ, List.flatMap_append]
    have hlen : ((List.range n).flatMap (fun i => [f i, g i, h i])).length = 3 * n :=
      flatMap_triple_length f g h n
    by_cases hc : t < n
    · have h0 : 3 * t < 3 * n := by omega
      have h1 : 3 * t + 1 < 3 * n := by omega
      have h2 : 3 * t + 2 < 3 * n := by omega
      rw [List.getElem?_append_left (by omega),
          List.getElem?_append_left (by omega),
          List.getElem?_append_left (by omega)]
      exact ih hc
    · have htn : t = n := by omega
      subst htn
      rw [List.getElem?_append_right (by omega),
          List.getElem?_append_right (by omega),
          List.getElem?_append_right (by omega)]
      rw [hlen]
      refine ⟨?_, ?_, ?_⟩
      · have : 3 * t - 3 * t = 0 := by omega
        rw [this]; rfl
      · have : 3 * t + 1 - 3 * t = 1 := by omega
        rw [this]; rfl
      · have : 3 * t + 2 - 3 * t = 2 := by omega
        rw [this]; rfl

/-- The event trace of the draining/poll loop of one iteration
(AdcApp.c lines 357-366). -/
def Adc_appDrainEvents (env : Env) (loopcnt : Nat) (log : List Adc_AppLog_t) :
    List Event :=
  (Adc_appPrintResult_pollLoop env loopcnt (List.range ADC_APP_LOG_SIZE) log).2

/-- C4: the draining poll loop runs for exactly `ADC_APP_LOG_SIZE` (10)
ticks, its trace is exactly the concatenation, for tick
`t = 0 .. 9` in order, of cache-invalidate, log-record write for tick
`t`, and the fixed 100 ms delay; positionally, the cache invalidate at
index `3t` is immediately before the log-record write (buffered DMA
value, direct hardware value, group status) at index `3t + 1`, which is
immediately before the delay at index `3t + 2`. -/
theorem adcApp_C4_drainPoll (env : Env) (loopcnt : Nat)
    (log : List Adc_AppLog_t) :
    Adc_appDrainEvents env loopcnt log =
      (List.range ADC_APP_LOG_SIZE).flatMap (fun t =>
        [Event.cacheInv, Event.logWrite t (Adc_AppLog_entry env loopcnt t),
         Event.delay 100])
    ∧ (Adc_appDrainEvents env loopcnt log).length = 3 * ADC_APP_LOG_SIZE
    ∧ ∀ t, t < ADC_APP_LOG_SIZE →
        (Adc_appDrainEvents env loopcnt log)[3 * t]? = some Event.cacheInv
        ∧ (Adc_appDrainEvents env loopcnt log)[3 * t + 1]? =
            some (Event.logWrite t (Adc_AppLog_entry env loopcnt t))
        ∧ (Adc_appDrainEvents env loopcnt log)[3 * t + 2]? =
            some (Event.delay 100) := by
  have he : Adc_appDrainEvents env loopcnt log =
      (List.range ADC_APP_LOG_SIZE).flatMap (fun t =>
        [Event.cacheInv, Event.logWrite t (Adc_AppLog_entry env loopcnt t),
         Event.delay 100]) :=
    pollLoop_events_eq env loopcnt (List.range ADC_APP_LOG_SIZE) log
  refine ⟨he, ?_, ?_⟩
  · rw [he]
    exact flatMap_triple_length _ _ _ ADC_APP_LOG_SIZE
  · intro t ht
    rw [he]
    exact flatMap_triple_getElem _ _ _ ADC_APP_LOG_SIZE t ht

/-- C5: the EDMA descriptor installed by `Adc_appDmaConfigure`
satisfies the descriptor invariant: its element count `aCnt` equals the
sampler's per-trigger output size (`ADC_APP_NUM_CHANNEL` channels times
two bytes per 16-bit sample), its inner and outer frame counts `bCnt`
and `cCnt` are one, its option flags include the completion interrupt,
intermediate completion interrupt, dimensional sync, and static
reprogram masks, and its destination C-index stride advances the
destination by exactly one sample slot (`bytesPerSample` bytes) per
completion; and every iteration of the test loop installs exactly this
descriptor with `Cdd_Dma_ParamSet`. -/
theorem adcApp_C5_descriptor (destPtr srcAddr : Nat) (maxGroup : Nat)
    (env : Env) (loopcnt : Nat) (log : List Adc_AppLog_t) :
    (Adc_appDmaConfigure_param destPtr (ADC_APP_NUM_CHANNEL * 2) srcAddr).aCnt =
        ADC_APP_NUM_CHANNEL * bytesPerSample
    ∧ (Adc_appDmaConfigure_param destPtr (ADC_APP_NUM_CHANNEL * 2) srcAddr).bCnt = 1
    ∧ (Adc_appDmaConfigure_param destPtr (ADC_APP_NUM_CHANNEL * 2) srcAddr).cCnt = 1
    ∧ CDD_EDMA_OPT_TCINTEN_MASK ∈
        (Adc_appDmaConfigure_param destPtr (ADC_APP_NUM_CHANNEL * 2) srcAddr).opt
    ∧ CDD_EDMA_OPT_ITCINTEN_MASK ∈
        (Adc_appDmaConfigure_param destPtr (ADC_APP_NUM_CHANNEL * 2) srcAddr).opt
    ∧ CDD_EDMA_OPT_SYNCDIM_MASK ∈
        (Adc_appDmaConfigure_param destPtr (ADC_APP_NUM_CHANNEL * 2) srcAddr).opt
    ∧ CDD_EDMA_OPT_STATIC_MASK ∈
        (Adc_appDmaConfigure_param destPtr (ADC_APP_NUM_CHANNEL * 2) srcAddr).opt
    ∧ (Adc_appDmaConfigure_param destPtr (ADC_APP_NUM_CHANNEL * 2) srcAddr).destCIdx =
        (bytesPerSample : Int)
    ∧ iterDmaParamSetEvent env ∈ Adc_appTest_iterEvents maxGroup env loopcnt log := by
  refine ⟨rfl, rfl, rfl, by simp [Adc_appDmaConfigure_param],
    by simp [Adc_appDmaConfigure_param], by simp [Adc_appDmaConfigure_param],
    by simp [Adc_appDmaConfigure_param], rfl, ?_⟩
  rw [iterEvents_eq]
  simp [Adc_appTest_armSegment, Adc_appDmaConfigure_events, iterDmaParamSetEvent]

theorem runOps_count_eq (ops : List ProgOp) (s : GState)
    (h : s.gAdcAppDmaCallbackCount + ops.countP isCallbackOp < 2 ^ 32) :
    (runOps ops s).gAdcAppDmaCallbackCount =
      s.gAdcAppDmaCallbackCount + ops.countP isCallbackOp := by
  induction ops generalizing s with
  | nil => simp [runOps]
  | cons op rest ih =>
    have hstep : runOps (op :: rest) s = runOps rest (applyOp op s) := rfl
    rw [hstep]
    cases op with
    | adcAppDmaTransferCallback =>
      have hc : (ProgOp.adcAppDmaTransferCallback :: rest).countP isCallbackOp =
          rest.countP isCallbackOp + 1 := by
        simp [List.countP_cons, isCallbackOp]
      rw [hc] at h ⊢
      have hlt : s.gAdcAppDmaCallbackCount + 1 < 2 ^ 32 := by omega
      have happ : (applyOp .adcAppDmaTransferCallback s).gAdcAppDmaCallbackCount =
          s.gAdcAppDmaCallbackCount + 1 := Nat.mod_eq_of_lt hlt
      rw [ih (applyOp .adcAppDmaTransferCallback s) (by rw [happ]; omega), happ]
      omega
    | memsetDmaBuffer =>
      have hc : (ProgOp.memsetDmaBuffer :: rest).countP isCallbackOp =
          rest.countP isCallbackOp := by
        simp [List.countP_cons, isCallbackOp]
      rw [hc] at h ⊢
      exact ih _ h
    | logWrite i e =>
      have hc : (ProgOp.logWrite i e :: rest).countP isCallbackOp =
          rest.countP isCallbackOp := by
        simp [List.countP_cons, isCallbackOp]
      rw [hc] at h ⊢
      exact ih _ h
    | markTestFailed =>
      have hc : (ProgOp.markTestFailed :: rest).countP isCallbackOp =
          rest.countP isCallbackOp := by
        simp [List.countP_cons, isCallbackOp]
      rw [hc] at h ⊢
      exact ih _ h
    | dmaEngineWrite i v =>
      have hc : (ProgOp.dmaEngineWrite i v :: rest).countP isCallbackOp =
          rest.countP isCallbackOp := by
        simp [List.countP_cons, isCallbackOp]
      rw [hc] at h ⊢
      exact ih _ h

/-- C6 (amended): the DMA transfer-completion callback
(`Adc_appDmaTransferCallback`) increments the 32-bit counter
`gAdcAppDmaCallbackCount` by exactly one modulo `2 ^ 32` and changes
nothing else in the global state; no other atomic operation of the run
writes the counter; hence over any interleaving containing fewer
callback invocations than would overflow the 32-bit counter, the
counter equals its initial value plus the number of invocations, and
in particular is monotonically non-decreasing.  (Unconditional
monotonicity fails at the uint32 wraparound; see the
counterexample.) -/
theorem adcApp_C6_callbackEffect :
    (∀ s : GState, applyOp .adcAppDmaTransferCallback s =
      { s with gAdcAppDmaCallbackCount :=
          (s.gAdcAppDmaCallbackCount + 1) % 2 ^ 32 })
    ∧ (∀ (op : ProgOp) (s : GState), op ≠ .adcAppDmaTransferCallback →
        (applyOp op s).gAdcAppDmaCallbackCount = s.gAdcAppDmaCallbackCount)
    ∧ (∀ (ops : List ProgOp) (s : GState),
        s.gAdcAppDmaCallbackCount + ops.countP isCallbackOp < 2 ^ 32 →
        (runOps ops s).gAdcAppDmaCallbackCount =
          s.gAdcAppDmaCallbackCount + ops.countP isCallbackOp)
    ∧ (∀ (ops : List ProgOp) (s : GState),
        s.gAdcAppDmaCallbackCount + ops.countP isCallbackOp < 2 ^ 32 →
        s.gAdcAppDmaCallbackCount ≤
          (runOps ops s).gAdcAppDmaCallbackCount) := by
  refine ⟨fun s => rfl, ?_, runOps_count_eq, ?_⟩
  · intro op s hne
    cases op with
    | adcAppDmaTransferCallback => exact absurd rfl hne
    | memsetDmaBuffer => rfl
    | logWrite i e => rfl
    | markTestFailed => rfl
    | dmaEngineWrite i v => rfl
  · intro ops s h
    rw [runOps_count_eq ops s h]
    omega

/-- C6 (counterexample): the original claim's unconditional
monotonicity is false under the source's uint32 wrap semantics: a
single callback invocation at counter value `2 ^ 32 - 1` wraps the
counter to 0, which is strictly below its previous value. -/
theorem adcApp_C6_counterexample :
    (runOps [ProgOp.adcAppDmaTransferCallback]
        ⟨E_OK, 4294967295, [], []⟩).gAdcAppDmaCallbackCount = 0
    ∧ ¬ ((⟨E_OK, 4294967295, [], []⟩ : GState).gAdcAppDmaCallbackCount ≤
        (runOps [ProgOp.adcAppDmaTransferCallback]
          ⟨E_OK, 4294967295, [], []⟩).gAdcAppDmaCallbackCount) := by
  constructor
  · decide
  · decide

/-- C9: the disarm sequence (disable the EPWM ADC triggers for SOC_A
and SOC_B, freeze the time-base counter, disable the sampler's
hardware trigger) is idempotent on every hardware-port state, and so
is `Adc_appDisableTrigger` alone; the underlying C functions return
`void`, so the second call cannot raise an error (the embedding is a
total function). -/
theorem adcApp_C9_disarmIdempotent (s : EpwmAdcHwState) :
    Adc_appTest_disarm_state (Adc_appTest_disarm_state s) =
        Adc_appTest_disarm_state s
    ∧ Adc_appDisableTrigger_state (Adc_appDisableTrigger_state s) =
        Adc_appDisableTrigger_state s := ⟨rfl, rfl⟩

theorem mainTrace_eq (maxGroup : Nat) (env : Env) :
    mainTrace maxGroup env =
      Adc_appInit_events
        ++ ((Adc_appTest_setupLoop env (List.range maxGroup) E_OK).2
            ++ (Adc_appTest_iterLoop maxGroup env
                 (List.range ADC_APP_LOOPCNT) gAdcAppLog_init).2)
        ++ (Adc_appDeInit_run env
             (Adc_appTest_run maxGroup env gAdcAppLog_init E_OK).1).2 := rfl

theorem finalVerdict_eq_deinit (maxGroup : Nat) (env : Env) :
    finalVerdict maxGroup env =
      (Adc_appDeInit_run env
        (Adc_appTest_run maxGroup env gAdcAppLog_init E_OK).1).1 := rfl

theorem logTestResult_mem_deinit (env : Env) (g : Std_ReturnType) :
    Event.logTestResult (decide ((Adc_appDeInit_run env g).1 = E_OK)) ∈
      (Adc_appDeInit_run env g).2 := by
  simp [Adc_appDeInit_run]

theorem finalVerdict_eq_notok_iff (maxGroup : Nat) (env : Env) :
    finalVerdict maxGroup env = E_NOT_OK ↔
      (∃ g ∈ List.range maxGroup, setupFailsAt env g) ∨
        env.stackCorruption = true := by
  have hs := setupLoop_flag_iff env (List.range maxGroup) E_OK
  rw [show finalVerdict maxGroup env =
    (if (if env.stackCorruption then E_NOT_OK else E_OK) ≠ E_OK then E_NOT_OK
     else if (Adc_appTest_setupLoop env (List.range maxGroup) E_OK).1 ≠ E_OK
          then E_NOT_OK else E_OK) from rfl]
  cases hcor : env.stackCorruption with
  | true => simp
  | false =>
    cases hflag : (Adc_appTest_setupLoop env (List.range maxGroup) E_OK).1 with
    | E_OK =>
      rw [hflag] at hs
      simp only [show (E_OK = E_NOT_OK) ↔ False by simp, false_iff,
        false_or] at hs
      simp
      simpa using hs
    | E_NOT_OK =>
      rw [hflag] at hs
      simp only [show (E_NOT_OK = E_NOT_OK) ↔ True by simp, true_iff] at hs
      rcases hs with hs | hs
      · cases hs
      · simp
        simpa using hs

/-- C1: for every group whose Setup checks fail (status found
non-`ADC_IDLE`, or `Adc_SetupResultBuffer` returning non-`E_OK`), the
Setup loop still calls `Adc_GetGroupStatus` and
`Adc_SetupResultBuffer` for that group and for every other group (no
failure aborts the loop), and the run's final verdict is FAIL: the
final `gTestPassed` is `E_NOT_OK` and the run logs a FAIL test
result. -/
theorem adcApp_C1_setupContinues (maxGroup : Nat) (env : Env) (g : Nat)
    (hg : g < maxGroup) (hbad : setupFailsAt env g) :
    (∀ k, k < maxGroup →
      Event.getGroupStatus k (env.groupStatusAtSetup k) ∈
          (Adc_appTest_setupLoop env (List.range maxGroup) E_OK).2
        ∧ Event.setupResultBuffer k (env.setupBufferResult k) ∈
          (Adc_appTest_setupLoop env (List.range maxGroup) E_OK).2)
    ∧ finalVerdict maxGroup env = E_NOT_OK
    ∧ Event.logTestResult false ∈ mainTrace maxGroup env := by
  have hv : finalVerdict maxGroup env = E_NOT_OK :=
    (finalVerdict_eq_notok_iff maxGroup env).mpr
      (Or.inl ⟨g, List.mem_range.mpr hg, hbad⟩)
  refine ⟨?_, hv, ?_⟩
  · intro k hk
    rw [setupLoop_events_eq]
    constructor
    · exact List.mem_flatMap.mpr
        ⟨k, List.mem_range.mpr hk, by simp⟩
    · exact List.mem_flatMap.mpr
        ⟨k, List.mem_range.mpr hk, by simp⟩
  · have hmem := logTestResult_mem_deinit env
      (Adc_appTest_run maxGroup env gAdcAppLog_init E_OK).1
    rw [← finalVerdict_eq_deinit] at hmem
    rw [hv] at hmem
    simp only [show (decide (E_NOT_OK = E_OK)) = false by rfl] at hmem
    rw [mainTrace_eq]
    exact List.mem_append_right _ hmem

/-- C10: the run verdict is failure-sticky: every atomic operation of
the run either leaves `gTestPassed` unchanged or sets it to
`E_NOT_OK`, and no operation ever moves it away from `E_NOT_OK`; and
the final verdict is FAIL exactly when at least one check failed
during the run (a group found non-Idle or a result-buffer setup
failure at Setup, or stack/section corruption at Teardown). -/
theorem adcApp_C10_verdictSticky (maxGroup : Nat) (env : Env) :
    (∀ (op : ProgOp) (s : GState),
        (applyOp op s).gTestPassed = s.gTestPassed ∨
          (applyOp op s).gTestPassed = E_NOT_OK)
    ∧ (∀ (op : ProgOp) (s : GState), s.gTestPassed = E_NOT_OK →
        (applyOp op s).gTestPassed = E_NOT_OK)
    ∧ (finalVerdict maxGroup env = E_NOT_OK ↔
        (∃ g ∈ List.range maxGroup, setupFailsAt env g) ∨
          env.stackCorruption = true) := by
  refine ⟨?_, ?_, finalVerdict_eq_notok_iff maxGroup env⟩
  · intro op s
    cases op with
    | adcAppDmaTransferCallback => exact Or.inl rfl
    | memsetDmaBuffer => exact Or.inl rfl
    | logWrite i e => exact Or.inl rfl
    | markTestFailed => exact Or.inr rfl
    | dmaEngineWrite i v => exact Or.inl rfl
  · intro op s hs
    cases op with
    | adcAppDmaTransferCallback => exact hs
    | memsetDmaBuffer => exact hs
    | logWrite i e => exact hs
    | markTestFailed => rfl
    | dmaEngineWrite i v => exact hs

theorem countP_memset_arm (maxGroup : Nat) (env : Env) :
    (Adc_appTest_armSegment maxGroup env).countP isMemsetEvent = 1 := by
  simp [Adc_appTest_armSegment, Adc_appDmaConfigure_events,
    Adc_appEpwmEnable_events, List.countP_append, List.countP_map,
    List.countP_cons, isMemsetEvent, Function.comp_def]

theorem countP_memset_printResult (env : Env) (lc : Nat)
    (log : List Adc_AppLog_t) :
    ((Adc_appPrintResult_run env lc log).2).countP isMemsetEvent = 0 := by
  refine List.countP_eq_zero.mpr ?_
  intro e he
  rcases e <;> simp [isMemsetEvent]
  exact not_mem_printResult_memset env lc log he

theorem countP_memset_disarm (maxGroup : Nat) :
    (Adc_appTest_disarmSegment maxGroup).countP isMemsetEvent = 0 := by
  simp [Adc_appTest_disarmSegment, Adc_appDisableTrigger_events,
    List.countP_append, List.countP_map, List.countP_cons, isMemsetEvent,
    Function.comp_def]

theorem countP_memset_iter (maxGroup : Nat) (env : Env) (i : Nat)
    (log : List Adc_AppLog_t) :
    ((Adc_appTest_iter maxGroup env i log).2).countP isMemsetEvent = 1 := by
  have : (Adc_appTest_iter maxGroup env i log).2 =
      Adc_appTest_armSegment maxGroup env
        ++ (Adc_appPrintResult_run env i log).2
        ++ Adc_appTest_disarmSegment maxGroup := rfl
  rw [this, List.countP_append, List.countP_append,
    countP_memset_arm, countP_memset_printResult, countP_memset_disarm]

theorem countP_iterLoop (maxGroup : Nat) (env : Env) (p : Event → Bool)
    (c : Nat)
    (hiter : ∀ i log, ((Adc_appTest_iter maxGroup env i log).2).countP p = c)
    (l : List Nat) (log : List Adc_AppLog_t) :
    ((Adc_appTest_iterLoop maxGroup env l log).2).countP p = c * l.length := by
  induction l generalizing log with
  | nil => simp [Adc_appTest_iterLoop]
  | cons i rest ih =>
    have : (Adc_appTest_iterLoop maxGroup env (i :: rest) log).2 =
        (Adc_appTest_iter maxGroup env i log).2
          ++ (Adc_appTest_iterLoop maxGroup env rest
               (Adc_appTest_iter maxGroup env i log).1).2 := rfl
    rw [this, List.countP_append, hiter, ih]
    simp [List.length_cons]
    ring

theorem countP_memset_setup (maxGroup : Nat) (env : Env) :
    ((Adc_appTest_setupLoop env (List.range maxGroup) E_OK).2).countP
      isMemsetEvent = 0 := by
  refine List.countP_eq_zero.mpr ?_
  intro e he
  rw [setupLoop_events_eq] at he
  simp only [List.mem_flatMap] at he
  rcases he with ⟨a, _, he⟩
  simp only [List.mem_cons, List.mem_singleton] at he
  rcases he with he | he | he
  · subst he; simp [isMemsetEvent]
  · subst he; simp [isMemsetEvent]
  · cases he

theorem countP_ltr_printResult (env : Env) (lc : Nat)
    (log : List Adc_AppLog_t) :
    ((Adc_appPrintResult_run env lc log).2).countP isLogTestResultEvent = 0 := by
  refine List.countP_eq_zero.mpr ?_
  intro e he
  rcases e <;> simp [isLogTestResultEvent]
  rename_i b
  exact not_mem_printResult_logTestResult env lc log b he

theorem countP_ltr_iter (maxGroup : Nat) (env : Env) (i : Nat)
    (log : List Adc_AppLog_t) :
    ((Adc_appTest_iter maxGroup env i log).2).countP isLogTestResultEvent = 0 := by
  have : (Adc_appTest_iter maxGroup env i log).2 =
      Adc_appTest_armSegment maxGroup env
        ++ (Adc_appPrintResult_run env i log).2
        ++ Adc_appTest_disarmSegment maxGroup := rfl
  rw [this, List.countP_append, List.countP_append, countP_ltr_printResult]
  have h1 : (Adc_appTest_armSegment maxGroup env).countP isLogTestResultEvent = 0 := by
    simp [Adc_appTest_armSegment, Adc_appDmaConfigure_events,
      Adc_appEpwmEnable_events, List.countP_append, List.countP_map,
      List.countP_cons, isLogTestResultEvent, Function.comp_def]
  have h2 : (Adc_appTest_disarmSegment maxGroup).countP isLogTestResultEvent = 0 := by
    simp [Adc_appTest_disarmSegment, Adc_appDisableTrigger_events,
      List.countP_append, List.countP_map, List.countP_cons,
      isLogTestResultEvent, Function.comp_def]
  rw [h1, h2]

theorem countP_ltr_setup (maxGroup : Nat) (env : Env) :
    ((Adc_appTest_setupLoop env (List.range maxGroup) E_OK).2).countP
      isLogTestResultEvent = 0 := by
  refine List.countP_eq_zero.mpr ?_
  intro e he
  rw [setupLoop_events_eq] at he
  simp only [List.mem_flatMap] at he
  rcases he with ⟨a, _, he⟩
  simp only [List.mem_cons, List.mem_singleton] at he
  rcases he with he | he | he
  · subst he; simp [isLogTestResultEvent]
  · subst he; simp [isLogTestResultEvent]
  · cases he

/-- C2: for every environment (every possible driver and hardware
behaviour, including Setup failures and teardown corruption), the
iteration loop executes exactly its fixed `ADC_APP_LOOPCNT` (10)
iterations — the run trace contains exactly ten buffer-arming
`memset` events, one per iteration — and the aggregated boolean
verdict is evaluated exactly once: the trace contains exactly one
`AppUtils_logTestResult` event, whose value is PASS exactly when the
final `gTestPassed` is `E_OK`. -/
theorem adcApp_C2_errorAggregation (maxGroup : Nat) (env : Env) :
    (mainTrace maxGroup env).countP isMemsetEvent = ADC_APP_LOOPCNT
    ∧ (mainTrace maxGroup env).countP isLogTestResultEvent = 1
    ∧ Event.logTestResult (decide (finalVerdict maxGroup env = E_OK)) ∈
        mainTrace maxGroup env := by
  refine ⟨?_, ?_, ?_⟩
  · rw [mainTrace_eq, List.countP_append, List.countP_append,
      List.countP_append, countP_memset_setup,
      countP_iterLoop maxGroup env isMemsetEvent 1
        (countP_memset_iter maxGroup env) (List.range ADC_APP_LOOPCNT)
        gAdcAppLog_init]
    have h1 : Adc_appInit_events.countP isMemsetEvent = 0 := by decide
    have h4 : ((Adc_appDeInit_run env
        (Adc_appTest_run maxGroup env gAdcAppLog_init E_OK).1).2).countP
          isMemsetEvent = 0 := by
      simp [Adc_appDeInit_run, List.countP_cons, isMemsetEvent]
    rw [h1, h4]
    simp [ADC_APP_LOOPCNT]
  · rw [mainTrace_eq, List.countP_append, List.countP_append,
      List.countP_append, countP_ltr_setup,
      countP_iterLoop maxGroup env isLogTestResultEvent 0
        (countP_ltr_iter maxGroup env) (List.range ADC_APP_LOOPCNT)
        gAdcAppLog_init]
    have h1 : Adc_appInit_events.countP isLogTestResultEvent = 0 := by decide
    have h4 : ((Adc_appDeInit_run env
        (Adc_appTest_run maxGroup env gAdcAppLog_init E_OK).1).2).countP
          isLogTestResultEvent = 1 := by
      simp [Adc_appDeInit_run, List.countP_cons, isLogTestResultEvent]
    rw [h1, h4]
    simp
  · have hmem := logTestResult_mem_deinit env
      (Adc_appTest_run maxGroup env gAdcAppLog_init E_OK).1
    rw [← finalVerdict_eq_deinit] at hmem
    rw [mainTrace_eq]
    exact List.mem_append_right _ hmem

theorem writeIndices_flatMap_triple (f : Nat → Adc_AppLog_t) (l : List Nat) :
    writeIndices (l.flatMap (fun t =>
      [Event.cacheInv, Event.logWrite t (f t), Event.delay 100])) = l := by
  induction l with
  | nil => rfl
  | cons t rest ih =>
    simp only [List.flatMap_cons, writeIndices, List.filterMap_append]
    rw [show (writeIndices (rest.flatMap (fun t =>
      [Event.cacheInv, Event.logWrite t (f t), Event.delay 100]))) =
        List.filterMap writeIdxOf (rest.flatMap (fun t =>
          [Event.cacheInv, Event.logWrite t (f t), Event.delay 100])) from rfl] at ih
    rw [ih]
    rfl

theorem writeIndices_printResult (env : Env) (lc : Nat)
    (log : List Adc_AppLog_t) :
    writeIndices ((Adc_appPrintResult_run env lc log).2) =
      List.range ADC_APP_LOG_SIZE := by
  have h : (Adc_appPrintResult_run env lc log).2 =
      [Event.getReadResultBaseAddress ADC_APP_GROUP_ID env.readResultBaseAddress]
        ++ (Adc_appPrintResult_pollLoop env lc (List.range ADC_APP_LOG_SIZE) log).2
        ++ (List.range ADC_APP_LOG_SIZE).map (fun i =>
             Event.printLogEntry i
               ((Adc_appPrintResult_pollLoop env lc
                  (List.range ADC_APP_LOG_SIZE) log).1.getD i ⟨0, 0, ADC_IDLE⟩)) := rfl
  rw [h]
  simp only [writeIndices, List.filterMap_append]
  rw [pollLoop_events_eq]
  have h1 := writeIndices_flatMap_triple
    (fun t => Adc_AppLog_entry env lc t) (List.range ADC_APP_LOG_SIZE)
  simp only [writeIndices] at h1
  rw [h1]
  simp [writeIdxOf, List.filterMap_map, Function.comp_def]

/-- C8 (amended): within the draining phase of each single iteration,
the log entries are populated in strictly increasing index order —
the sequence of written indices is exactly `0, 1, ..., 9`, each
written exactly once per iteration; the log array is reused across
iterations, so each entry is overwritten once per iteration of the
run. -/
theorem adcApp_C8_amended (env : Env) (lc : Nat) (log : List Adc_AppLog_t) :
    writeIndices ((Adc_appPrintResult_run env lc log).2) =
        List.range ADC_APP_LOG_SIZE
    ∧ List.Pairwise (· < ·)
        (writeIndices ((Adc_appPrintResult_run env lc log).2)) := by
  refine ⟨writeIndices_printResult env lc log, ?_⟩
  rw [writeIndices_printResult env lc log]
  exact List.pairwise_lt_range ADC_APP_LOG_SIZE

/-- C8 (counterexample): over the whole run the claim fails.  With two
groups and the nominal environment in which the DMA buffer holds the
value `loopcnt` during iteration `loopcnt`: the sequence of written
log indices over the full run trace is not strictly increasing (each
iteration restarts at index 0), and the entry at log index 0 is
written ten times with ten different `dmaBuff` values — it is mutated
again after being written. -/
theorem adcApp_C8_counterexample :
    ¬ List.Pairwise (· < ·) (writeIndices (mainTrace 2 envNominal))
    ∧ (writesAt 0 (mainTrace 2 envNominal)).map Adc_AppLog_t.dmaBuff =
        [0, 1, 2, 3, 4, 5, 6, 7, 8, 9] := by
  constructor
  · decide
  · decide

theorem adcApp_C1_witness :
    (0 : Nat) < 2 ∧ setupFailsAt envBusyGroup0 0
    ∧ finalVerdict 2 envBusyGroup0 = E_NOT_OK :=
  ⟨by decide, by decide,
    (adcApp_C1_setupContinues 2 envBusyGroup0 0 (by decide) (by decide)).2.1⟩

theorem adcApp_C3_witness :
    (Adc_appTest_iterEvents 2 envNominal 0 gAdcAppLog_init).get? 8 =
        some iterDmaEnableEvent
    ∧ (Adc_appTest_iterEvents 2 envNominal 0 gAdcAppLog_init).get? 89 =
        some epwmCounterUpEvent
    ∧ (8 : Nat) < 89 :=
  ⟨by decide, by decide,
    (adcApp_C3_armingOrder 2 envNominal 0 gAdcAppLog_init).2.2.2.2.2.2 8 89
      (by decide) (by decide)⟩

theorem adcApp_C4_witness :
    (0 : Nat) < ADC_APP_LOG_SIZE
    ∧ (Adc_appDrainEvents envNominal 0 gAdcAppLog_init)[0]? =
        some Event.cacheInv :=
  ⟨by decide, ((adcApp_C4_drainPoll envNominal 0 gAdcAppLog_init).2.2 0
    (by decide)).1⟩

theorem adcApp_C6_witness :
    (ProgOp.markTestFailed ≠ ProgOp.adcAppDmaTransferCallback
      ∧ (applyOp .markTestFailed ⟨E_OK, 5, [], []⟩).gAdcAppDmaCallbackCount = 5)
    ∧ ((⟨E_OK, 5, [], []⟩ : GState).gAdcAppDmaCallbackCount +
          ([ProgOp.adcAppDmaTransferCallback,
            ProgOp.adcAppDmaTransferCallback].countP isCallbackOp) < 2 ^ 32
      ∧ (runOps [ProgOp.adcAppDmaTransferCallback,
            ProgOp.adcAppDmaTransferCallback]
          ⟨E_OK, 5, [], []⟩).gAdcAppDmaCallbackCount = 7) :=
  ⟨⟨by decide,
    adcApp_C6_callbackEffect.2.1 .markTestFailed ⟨E_OK, 5, [], []⟩ (by decide)⟩,
   ⟨by decide, by
    have h := adcApp_C6_callbackEffect.2.2.1
      [ProgOp.adcAppDmaTransferCallback, ProgOp.adcAppDmaTransferCallback]
      ⟨E_OK, 5, [], []⟩ (by decide)
    simpa using h⟩⟩

theorem adcApp_C7_witness :
    ((Adc_appTest_iterEvents 2 envNominal 0 gAdcAppLog_init).get? 136 =
        some (Event.epwm (.EPWM_setTimeBaseCounterMode .EPWM_COUNTER_MODE_STOP_FREEZE))
      ∧ (Adc_appTest_iterEvents 2 envNominal 0 gAdcAppLog_init).get? 137 =
        some (Event.disableHardwareTrigger ADC_APP_GROUP_ID)
      ∧ (136 : Nat) < 137)
    ∧ (0 : Nat) < 2
    ∧ Event.disableGroupNotification 0 ∈
        Adc_appTest_iterEvents 2 envNominal 0 gAdcAppLog_init :=
  ⟨⟨by decide, by decide,
    (adcApp_C7_disarmOrder 2 envNominal 0 gAdcAppLog_init).2.2.1 136 137
      (by decide) (by decide)⟩,
   by decide,
   (adcApp_C7_disarmOrder 2 envNominal 0 gAdcAppLog_init).2.2.2.2 0 (by decide)⟩

theorem adcApp_C10_witness :
    (applyOp ProgOp.memsetDmaBuffer ⟨E_NOT_OK, 0, [], []⟩).gTestPassed =
      E_NOT_OK :=
  (adcApp_C10_verdictSticky 1 envNominal).2.1 ProgOp.memsetDmaBuffer
    ⟨E_NOT_OK, 0, [], []⟩ (by decide)
